import Mathlib

/-!
Verification development for the superfaktura-client library.

The Python source is shallowly embedded: each dataclass becomes a structure
whose fields hold dynamically typed values (`Json`), each method becomes a
pure function, HTTP responses are explicit inputs, and raised exceptions
become `Except` errors. JSON numbers are modelled as integers (no claim in
scope depends on fractional values), and byte strings as `String`.
-/

/-- Dynamically typed values exchanged with the API, as decoded from JSON.
The extra `date` constructor stands for a Python `Date` object stored inside
a record or wire map before JSON encoding (a calendar date, or unset). -/
inductive Json where
  | null : Json
  | bool : Bool → Json
  | num : Int → Json
  | str : String → Json
  | date : Option (Nat × Nat × Nat) → Json
  | arr : List Json → Json
  | obj : List (String × Json) → Json

/-- Boolean test for the `None` value. -/
def Json.isNull : Json → Bool
  | Json.null => true
  | _ => false

/-- Python exceptions that the embedded code can raise. -/
inductive PyExc where
  | superFakturaAPIException : String → PyExc
  | superFakturaAPIMissingCredentialsException : String → PyExc
  | jsonDecodeError : String → PyExc
  | typeError : String → PyExc
  | valueError : String → PyExc
  | keyError : String → PyExc
  | noDefaultBankAccountException : String → PyExc
  | clientException : String → PyExc
  deriving DecidableEq

/-- First-match lookup in a Python dict, modelled as an ordered association list. -/
def assoc : List (String × Json) → String → Option Json
  | [], _ => none
  | (k, v) :: rest, key => if k = key then some v else assoc rest key

/-- Drops the entries whose value is `None`; this models the
`for key in list(data.keys()): if data[key] is None: del data[key]` loop
shared by every `as_dict` method. Order of the remaining keys is preserved. -/
def dropNulls (kvs : List (String × Json)) : List (String × Json) :=
  kvs.filter (fun kv => !kv.2.isNull)

/-- Keyword-argument lookup with the dataclass default `None` for absent keys. -/
def jget (d : List (String × Json)) (k : String) : Json :=
  (assoc d k).getD Json.null

/-- Python truthiness of a decoded value. -/
def pyTruthy : Json → Bool
  | Json.null => false
  | Json.bool b => b
  | Json.num n => n != 0
  | Json.str s => s != ""
  | Json.date _ => true
  | Json.arr xs => !xs.isEmpty
  | Json.obj kvs => !kvs.isEmpty

mutual
/-- Python `repr()` of a decoded value (string escaping is not modelled:
quotes are emitted, embedded quote characters are left as is). -/
def pyRepr : Json → String
  | Json.null => "None"
  | Json.bool b => if b then "True" else "False"
  | Json.num n => toString n
  | Json.str s => "\x27" ++ s ++ "\x27"
  | Json.date _ => "<Date>"
  | Json.arr xs => "[" ++ pyReprList xs ++ "]"
  | Json.obj kvs => "\x7b" ++ pyReprObj kvs ++ "\x7d"

def pyReprList : List Json → String
  | [] => ""
  | [x] => pyRepr x
  | x :: xs => pyRepr x ++ ", " ++ pyReprList xs

def pyReprObj : List (String × Json) → String
  | [] => ""
  | [(k, v)] => "\x27" ++ k ++ "\x27: " ++ pyRepr v
  | (k, v) :: rest => "\x27" ++ k ++ "\x27: " ++ pyRepr v ++ ", " ++ pyReprObj rest
end

/-- Python `str()` of a decoded value, as interpolated by an f-string. -/
def pyStr : Json → String
  | Json.str s => s
  | j => pyRepr j

/-- `repr()` of a `bytes` response body, as produced by `f"{req.content!r}"`
(escape sequences inside the bytes are not modelled). -/
def pyBytesRepr (content : String) : String :=
  "b\x27" ++ content ++ "\x27"

/-- Python subscript `j[k]` with a string key: `KeyError` on a dict without
the key, `TypeError` on a non-dict. -/
def Json.getItem (j : Json) (k : String) : Except PyExc Json :=
  match j with
  | Json.obj kvs =>
    match assoc kvs k with
    | some v => Except.ok v
    | none => Except.error (PyExc.keyError k)
  | _ => Except.error (PyExc.typeError "value is not subscriptable by a string key")

/-- Whether the first character list starts the second. -/
def listStarts : List Char → List Char → Bool
  | [], _ => true
  | _ :: _, [] => false
  | c :: cs, h :: hs => c == h && listStarts cs hs

/-- Whether the first character list occurs inside the second. -/
def listHasSub (needle : List Char) : List Char → Bool
  | [] => needle.isEmpty
  | h :: hs => listStarts needle (h :: hs) || listHasSub needle hs

/-- Python membership test `k in j` for a string `k`: key membership on a
dict, element equality on a list (a string only equals a string), substring
on a string, `TypeError` otherwise. -/
def pyIn (k : String) (j : Json) : Except PyExc Bool :=
  match j with
  | Json.obj kvs => Except.ok (assoc kvs k).isSome
  | Json.arr xs =>
    Except.ok (xs.any (fun x => match x with | Json.str s => s = k | _ => false))
  | Json.str s => Except.ok (listHasSub k.data s.data)
  | _ => Except.error (PyExc.typeError "argument of type is not iterable")

/-- The decimal digit characters, used to format one digit. -/
def digitChar : Nat → Char
  | 0 => '0' | 1 => '1' | 2 => '2' | 3 => '3' | 4 => '4'
  | 5 => '5' | 6 => '6' | 7 => '7' | 8 => '8' | _ => '9'

/-- Numeric value of one ASCII digit character. -/
def charToDigit (c : Char) : Nat := c.toNat - 48

/-- Character-level check for an ASCII decimal digit. -/
def isDigitChar (c : Char) : Bool := '0' ≤ c && c ≤ '9'

/-- All characters are ASCII decimal digits. -/
def allDigits (cs : List Char) : Bool := cs.all isDigitChar

/-- Numeric value of a digit string, most significant digit first. -/
def digitsToNat (cs : List Char) : Nat :=
  cs.foldl (fun a c => 10 * a + charToDigit c) 0

/-- Whitespace accepted around a Python `int()` literal. -/
def isSpaceChar (c : Char) : Bool := c == ' ' || c == '\t' || c == '\n' || c == '\r'

/-- Strips surrounding whitespace from a character list. -/
def trimChars (cs : List Char) : List Char :=
  ((cs.dropWhile isSpaceChar).reverse.dropWhile isSpaceChar).reverse

/-- Python `int()` applied to a string: optional sign and decimal digits,
with surrounding whitespace allowed. -/
def parseIntStr (s : String) : Option Int :=
  match trimChars s.data with
  | [] => none
  | '-' :: rest =>
    if !rest.isEmpty && allDigits rest then some (-(digitsToNat rest : Int)) else none
  | '+' :: rest =>
    if !rest.isEmpty && allDigits rest then some ((digitsToNat rest : Int)) else none
  | cs =>
    if allDigits cs then some ((digitsToNat cs : Int)) else none

/-- Python `int(x)` on a decoded value. -/
def pyInt (j : Json) : Except PyExc Int :=
  match j with
  | Json.num n => Except.ok n
  | Json.bool b => Except.ok (if b then 1 else 0)
  | Json.str s =>
    match parseIntStr s with
    | some n => Except.ok n
    | none => Except.error (PyExc.valueError ("invalid literal for int() with base 10: " ++ s))
  | _ => Except.error (PyExc.typeError "int() argument must be a string or a number")

/-- Decimal representation of a natural number, without padding; this models
the `%Y` directive of `strftime`, which emits the year unpadded. -/
def natToChars (n : Nat) : List Char :=
  if n < 10 then [digitChar n]
  else natToChars (n / 10) ++ [digitChar (n % 10)]
termination_by n
decreasing_by exact Nat.div_lt_self (by omega) (by omega)

/-- Two-digit zero-padded field, modelling the `%m` and `%d` directives. -/
def pad2 (n : Nat) : List Char :=
  if n < 10 then '0' :: [digitChar n] else natToChars n

/-- `strftime("%Y-%m-%d")` on a stored calendar date. -/
def fmtYMD : Nat × Nat × Nat → String
  | (y, m, d) => String.mk (natToChars y ++ '-' :: (pad2 m ++ '-' :: pad2 d))

/-- Splits a character list at every dash, keeping empty segments. -/
def splitDash : List Char → List (List Char)
  | [] => [[]]
  | c :: rest =>
    if c = '-' then [] :: splitDash rest
    else
      match splitDash rest with
      | [] => [[c]]
      | seg :: segs => (c :: seg) :: segs

/-- Whether the year is a Gregorian leap year. -/
def isLeap (y : Nat) : Bool := (y % 4 = 0 && y % 100 != 0) || y % 400 = 0

/-- Length of a month, as validated by the `datetime` constructor. -/
def daysInMonth (y m : Nat) : Nat :=
  if m = 2 then (if isLeap y then 29 else 28)
  else if m = 4 || m = 6 || m = 9 || m = 11 then 30
  else 31

/-- The day field of the `strptime` pattern: the `%d` regex in `_strptime`
is `3[01]|[12]\d|0[1-9]|[1-9]| [1-9]` — one or two digits with value 1..31,
or a space followed by a nonzero digit. Returns the day value it matches. -/
def dayField (ds : List Char) : Option Nat :=
  match ds with
  | [c] =>
    if isDigitChar c && 1 ≤ charToDigit c then some (charToDigit c) else none
  | [c1, c2] =>
    if c1 = ' ' then
      if isDigitChar c2 && 1 ≤ charToDigit c2 then some (charToDigit c2) else none
    else
      if isDigitChar c1 && isDigitChar c2 then
        if 1 ≤ 10 * charToDigit c1 + charToDigit c2 &&
            10 * charToDigit c1 + charToDigit c2 ≤ 31 then
          some (10 * charToDigit c1 + charToDigit c2)
        else none
      else none
  | _ => none

/-- `datetime.strptime(s, "%Y-%m-%d")`, returning the parsed calendar date or
`none` for the `ValueError` case. The regex built by `_strptime` matches
exactly four digits for `%Y`, one or two digits with value 1..12 for `%m`,
and for `%d` one or two digits with value 1..31 or a space-padded nonzero
digit; literal dashes must match exactly and the whole string must be
consumed. The `datetime` constructor then requires a year of at least 1 and
a day that exists in the month. Digits are modelled as ASCII. -/
def strptimeYMD (s : String) : Option (Nat × Nat × Nat) :=
  match splitDash s.data with
  | [ys, ms, ds] =>
    if allDigits ys && ys.length = 4 &&
       allDigits ms && 1 ≤ ms.length && ms.length ≤ 2 then
      match dayField ds with
      | some d =>
        let y := digitsToNat ys
        let m := digitsToNat ms
        if 1 ≤ m && m ≤ 12 && 1 ≤ y && d ≤ daysInMonth y m then
          some (y, m, d)
        else none
      | none => none
    else none
  | _ => none

/-- A Python `Date` object: a stored calendar date, or the unset state. -/
structure Date where
  date : Option (Nat × Nat × Nat)
  deriving DecidableEq

/-- `Date.__init__(date_str)`: a missing or empty (falsy) argument yields the
unset state; otherwise `_validate_date` parses with `strptime("%Y-%m-%d")`
and a parse failure raises `ValueError` naming the offending string. -/
def Date.init (date_str : Option String) : Except PyExc Date :=
  match date_str with
  | none => Except.ok ⟨none⟩
  | some s =>
    if s = "" then Except.ok ⟨none⟩
    else
      match strptimeYMD s with
      | some ymd => Except.ok ⟨some ymd⟩
      | none => Except.error (PyExc.valueError ("Date must be in format YYYY-MM-DD, got: " ++ s))

/-- `Date.__str__`: the formatted date, or the literal string `"None"`. -/
def Date.str (d : Date) : String :=
  match d.date with
  | some ymd => fmtYMD ymd
  | none => "None"

/-- `Date.is_set`. -/
def Date.is_set (d : Date) : Bool := d.date.isSome

/-- `Date.to_dict`: the formatted date, or `None` when unset. -/
def Date.to_dict (d : Date) : Option String :=
  match d.date with
  | some ymd => some (fmtYMD ymd)
  | none => none

/-- `Date.to_json`, which simply returns `to_dict`. -/
def Date.to_json (d : Date) : Option String := d.to_dict

mutual
/-- `json.dumps(..., cls=DateEncoder)`: the encoding hook replaces every
embedded `Date` object by its `to_json` value (a formatted string, or null)
and leaves every other value unchanged. -/
def dateEncode : Json → Json
  | Json.date none => Json.null
  | Json.date (some ymd) => Json.str (fmtYMD ymd)
  | Json.arr xs => Json.arr (dateEncodeList xs)
  | Json.obj kvs => Json.obj (dateEncodeObj kvs)
  | Json.null => Json.null
  | Json.bool b => Json.bool b
  | Json.num n => Json.num n
  | Json.str s => Json.str s

def dateEncodeList : List Json → List Json
  | [] => []
  | x :: xs => dateEncode x :: dateEncodeList xs

def dateEncodeObj : List (String × Json) → List (String × Json)
  | [] => []
  | (k, v) :: rest => (k, dateEncode v) :: dateEncodeObj rest
end

/-- Stated from the spec, for comparison with the code: a string in the exact
`YYYY-MM-DD` shape (four digits, dash, two digits, dash, two digits). -/
def specExactYMDShape (s : String) : Bool :=
  match s.data with
  | [y1, y2, y3, y4, h1, m1, m2, h2, d1, d2] =>
    allDigits [y1, y2, y3, y4, m1, m2, d1, d2] && h1 = '-' && h2 = '-'
  | _ => false

/-- The outcome of one HTTP round trip, as the `requests` library reports it:
the status code, the raw body, and the result of calling `.json()` on the
response (the decoded value, or the message of the raised
`requests.exceptions.JSONDecodeError`). -/
structure HttpResponse where
  status_code : Nat
  content : String
  json : Except String Json

/-- A caller-supplied binary sink (an open file object): its `str()` form and
whether `writable()` returns true. -/
structure Sink where
  name : String
  writable : Bool

/-- The transport client, holding the resolved credentials. -/
structure SuperFakturaAPI where
  _api_url : String
  _auth_header : String

/-- Truthiness of `os.getenv`: falsy when the variable is absent or empty. -/
def envFalsy : Option String → Bool
  | none => true
  | some s => s == ""

/-- `SuperFakturaAPI.__init__`: reads the four configuration values from the
environment (after `load_dotenv`, which is part of the ambient environment
here); if any is missing or empty it raises the missing-credentials
exception, otherwise it stores the base URL and the authorization header. -/
def SuperFakturaAPI.init (env : String → Option String) : Except PyExc SuperFakturaAPI :=
  let _api_key := env "SUPERFAKTURA_API_KEY"
  let _api_url := env "SUPERFAKTURA_API_URL"
  let _api_mail := env "SUPERFAKTURA_API_EMAIL"
  let _api_company_id := env "SUPERFAKTURA_API_COMPANY_ID"
  if envFalsy _api_key || envFalsy _api_url || envFalsy _api_mail || envFalsy _api_company_id then
    Except.error (PyExc.superFakturaAPIMissingCredentialsException
      "Please ensure, that necessary credentials are set. Please see README.md")
  else
    Except.ok
      { _api_url := _api_url.getD ""
        _auth_header := "SFAPI email=" ++ _api_mail.getD "" ++ "&apikey=" ++ _api_key.getD ""
          ++ "&company_id=" ++ _api_company_id.getD "" }

/-- The composed request URL `f"{self._api_url}/{endpoint}"`. -/
def SuperFakturaAPI.url (api : SuperFakturaAPI) (endpoint : String) : String :=
  api._api_url ++ "/" ++ endpoint

/-- `SuperFakturaAPI.get`: on status 200 returns the decoded JSON body, and a
decode failure is wrapped in a `SuperFakturaAPIException` carrying the raw
bytes and the parse failure; any other status raises a
`SuperFakturaAPIException` carrying the status code and the raw bytes.
The HTTP round trip itself is an explicit input. -/
def SuperFakturaAPI.get (api : SuperFakturaAPI) (endpoint : String) (resp : HttpResponse) :
    Except PyExc Json :=
  if resp.status_code = 200 then
    match resp.json with
    | Except.ok j => Except.ok j
    | Except.error e =>
      Except.error (PyExc.superFakturaAPIException
        ("Unable to decode response as JSON; " ++ pyBytesRepr resp.content ++ "; " ++ e))
  else
    Except.error (PyExc.superFakturaAPIException
      ("Get status code: " ++ toString resp.status_code ++ "; " ++ pyBytesRepr resp.content))

/-- `SuperFakturaAPI.download`: returns the list of write calls issued on the
descriptor together with the raised exception, if any. On status 200 with a
writable descriptor the raw body is written in one call; a non-writable
descriptor raises a `SuperFakturaAPIException` naming the descriptor; any
other status raises a `SuperFakturaAPIException` with the status code and the
raw bytes. -/
def SuperFakturaAPI.download (api : SuperFakturaAPI) (endpoint : String) (resp : HttpResponse)
    (descriptor : Sink) : List String × Option PyExc :=
  if resp.status_code = 200 then
    if descriptor.writable then ([resp.content], none)
    else ([], some (PyExc.superFakturaAPIException
      ("Descriptor " ++ descriptor.name ++ " is not writable")))
  else
    ([], some (PyExc.superFakturaAPIException
      ("Download status code: " ++ toString resp.status_code ++ "; " ++ pyBytesRepr resp.content)))

/-- `SuperFakturaAPI.post`: on status 200 it returns `req.json()` with no
handler around it, so a decode failure propagates as the raw
`JSONDecodeError`; on any other status it raises a `SuperFakturaAPIException`
whose message interpolates `req.json()` (the decoded body, not the raw
bytes), so an undecodable error body also propagates as `JSONDecodeError`. -/
def SuperFakturaAPI.post (api : SuperFakturaAPI) (endpoint : String) (data : String)
    (resp : HttpResponse) : Except PyExc Json :=
  if resp.status_code = 200 then
    match resp.json with
    | Except.ok j => Except.ok j
    | Except.error e => Except.error (PyExc.jsonDecodeError e)
  else
    match resp.json with
    | Except.ok j =>
      Except.error (PyExc.superFakturaAPIException
        ("Post status code: " ++ toString resp.status_code ++ "; " ++ pyStr j))
    | Except.error e => Except.error (PyExc.jsonDecodeError e)

/-- The `ClientContactModel` dataclass: `name` is mandatory, every other
field defaults to `None` (`Json.null`). Field order follows the source. -/
structure ClientContactModel where
  name : Json
  address : Json := Json.null
  bank_account : Json := Json.null
  bank_code : Json := Json.null
  city : Json := Json.null
  comment : Json := Json.null
  country : Json := Json.null
  country_id : Json := Json.null
  currency : Json := Json.null
  default_variable : Json := Json.null
  delivery_address : Json := Json.null
  delivery_city : Json := Json.null
  delivery_country : Json := Json.null
  delivery_country_id : Json := Json.null
  delivery_name : Json := Json.null
  delivery_phone : Json := Json.null
  delivery_zip : Json := Json.null
  dic : Json := Json.null
  discount : Json := Json.null
  due_date : Json := Json.null
  email : Json := Json.null
  fax : Json := Json.null
  iban : Json := Json.null
  ic_dph : Json := Json.null
  ico : Json := Json.null
  match_address : Json := Json.null
  phone : Json := Json.null
  swift : Json := Json.null
  tags : Json := Json.null
  uuid : Json := Json.null
  zip : Json := Json.null
  update : Json := Json.null
  id : Json := Json.null

/-- `dataclasses.asdict` on a `ClientContactModel`: every declared field in
declaration order. -/
def ClientContactModel.fields (c : ClientContactModel) : List (String × Json) :=
  [("name", c.name), ("address", c.address), ("bank_account", c.bank_account),
   ("bank_code", c.bank_code), ("city", c.city), ("comment", c.comment),
   ("country", c.country), ("country_id", c.country_id), ("currency", c.currency),
   ("default_variable", c.default_variable), ("delivery_address", c.delivery_address),
   ("delivery_city", c.delivery_city), ("delivery_country", c.delivery_country),
   ("delivery_country_id", c.delivery_country_id), ("delivery_name", c.delivery_name),
   ("delivery_phone", c.delivery_phone), ("delivery_zip", c.delivery_zip),
   ("dic", c.dic), ("discount", c.discount), ("due_date", c.due_date),
   ("email", c.email), ("fax", c.fax), ("iban", c.iban), ("ic_dph", c.ic_dph),
   ("ico", c.ico), ("match_address", c.match_address), ("phone", c.phone),
   ("swift", c.swift), ("tags", c.tags), ("uuid", c.uuid), ("zip", c.zip),
   ("update", c.update), ("id", c.id)]

/-- `ClientContactModel.as_dict`: `asdict(self)` with the `None` entries
deleted. -/
def ClientContactModel.as_dict (c : ClientContactModel) : List (String × Json) :=
  dropNulls c.fields

/-- `ClientContactModel.from_dict`: keeps only the keys naming declared
fields and calls the constructor with them; every absent optional field takes
its `None` default, and an absent `name` makes the constructor call raise
`TypeError`. -/
def ClientContactModel.from_dict (d : List (String × Json)) : Except PyExc ClientContactModel :=
  match assoc d "name" with
  | none => Except.error (PyExc.typeError
      "ClientContactModel.__init__ missing 1 required positional argument: name")
  | some nm => Except.ok
    { name := nm, address := jget d "address", bank_account := jget d "bank_account",
      bank_code := jget d "bank_code", city := jget d "city", comment := jget d "comment",
      country := jget d "country", country_id := jget d "country_id",
      currency := jget d "currency", default_variable := jget d "default_variable",
      delivery_address := jget d "delivery_address", delivery_city := jget d "delivery_city",
      delivery_country := jget d "delivery_country",
      delivery_country_id := jget d "delivery_country_id",
      delivery_name := jget d "delivery_name", delivery_phone := jget d "delivery_phone",
      delivery_zip := jget d "delivery_zip", dic := jget d "dic",
      discount := jget d "discount", due_date := jget d "due_date",
      email := jget d "email", fax := jget d "fax", iban := jget d "iban",
      ic_dph := jget d "ic_dph", ico := jget d "ico",
      match_address := jget d "match_address", phone := jget d "phone",
      swift := jget d "swift", tags := jget d "tags", uuid := jget d "uuid",
      zip := jget d "zip", update := jget d "update", id := jget d "id" }

/-- The `BankAccountModel` dataclass: every field is a required constructor
argument (none of them has a default), although each may hold `None`. -/
structure BankAccountModel where
  account : Json
  bank_code : Json
  bank_name : Json
  default : Json
  iban : Json
  «show» : Json
  swift : Json
  id : Json

/-- `dataclasses.asdict` on a `BankAccountModel`. -/
def BankAccountModel.fields (b : BankAccountModel) : List (String × Json) :=
  [("account", b.account), ("bank_code", b.bank_code), ("bank_name", b.bank_name),
   ("default", b.default), ("iban", b.iban), ("show", b.«show»),
   ("swift", b.swift), ("id", b.id)]

/-- `BankAccountModel.as_dict`: `asdict(self)` with the `None` entries
deleted. -/
def BankAccountModel.as_dict (b : BankAccountModel) : List (String × Json) :=
  dropNulls b.fields

/-- `BankAccountModel.from_dict`: keeps only the declared keys; since no
field has a default, the constructor call raises `TypeError` as soon as one
of the eight declared keys is absent. -/
def BankAccountModel.from_dict (d : List (String × Json)) : Except PyExc BankAccountModel :=
  match assoc d "account", assoc d "bank_code", assoc d "bank_name", assoc d "default",
        assoc d "iban", assoc d "show", assoc d "swift", assoc d "id" with
  | some a, some bc, some bn, some df, some ib, some sh, some sw, some i =>
    Except.ok ⟨a, bc, bn, df, ib, sh, sw, i⟩
  | _, _, _, _, _, _, _, _ =>
    Except.error (PyExc.typeError
      "BankAccountModel.__init__ missing required positional arguments")

/-- The `InvoiceModel` dataclass: `add_rounding_item` and `discount` default
to `0`, every other field to `None`. Field order follows the source. -/
structure InvoiceModel where
  add_rounding_item : Json := Json.num 0
  already_paid : Json := Json.null
  bank_accounts : Json := Json.null
  comment : Json := Json.null
  constant : Json := Json.null
  created : Json := Json.null
  delivery : Json := Json.null
  delivery_type : Json := Json.null
  deposit : Json := Json.null
  discount : Json := Json.num 0
  discount_total : Json := Json.null
  due : Json := Json.null
  estimate_id : Json := Json.null
  header_comment : Json := Json.null
  internal_comment : Json := Json.null
  invoice_currency : Json := Json.null
  invoice_no_formatted : Json := Json.null
  issued_by : Json := Json.null
  issued_by_email : Json := Json.null
  issued_by_phone : Json := Json.null
  issued_by_web : Json := Json.null
  logo_id : Json := Json.null
  mark_sent : Json := Json.null
  mark_sent_message : Json := Json.null
  mark_sent_subject : Json := Json.null
  name : Json := Json.null
  order_no : Json := Json.null
  parent_id : Json := Json.null
  paydate : Json := Json.null
  payment_type : Json := Json.null
  proforma_id : Json := Json.null
  rounding : Json := Json.null
  sequence_id : Json := Json.null
  specific : Json := Json.null
  tax_document : Json := Json.null
  type : Json := Json.null
  «variable» : Json := Json.null
  vat_transfer : Json := Json.null

/-- `dataclasses.asdict` on an `InvoiceModel`. -/
def InvoiceModel.fields (v : InvoiceModel) : List (String × Json) :=
  [("add_rounding_item", v.add_rounding_item), ("already_paid", v.already_paid),
   ("bank_accounts", v.bank_accounts), ("comment", v.comment), ("constant", v.constant),
   ("created", v.created), ("delivery", v.delivery), ("delivery_type", v.delivery_type),
   ("deposit", v.deposit), ("discount", v.discount), ("discount_total", v.discount_total),
   ("due", v.due), ("estimate_id", v.estimate_id), ("header_comment", v.header_comment),
   ("internal_comment", v.internal_comment), ("invoice_currency", v.invoice_currency),
   ("invoice_no_formatted", v.invoice_no_formatted), ("issued_by", v.issued_by),
   ("issued_by_email", v.issued_by_email), ("issued_by_phone", v.issued_by_phone),
   ("issued_by_web", v.issued_by_web), ("logo_id", v.logo_id), ("mark_sent", v.mark_sent),
   ("mark_sent_message", v.mark_sent_message), ("mark_sent_subject", v.mark_sent_subject),
   ("name", v.name), ("order_no", v.order_no), ("parent_id", v.parent_id),
   ("paydate", v.paydate), ("payment_type", v.payment_type), ("proforma_id", v.proforma_id),
   ("rounding", v.rounding), ("sequence_id", v.sequence_id), ("specific", v.specific),
   ("tax_document", v.tax_document), ("type", v.type), ("variable", v.«variable»),
   ("vat_transfer", v.vat_transfer)]

/-- `InvoiceModel.as_dict`: `asdict(self)` with the `None` entries deleted. -/
def InvoiceModel.as_dict (v : InvoiceModel) : List (String × Json) :=
  dropNulls v.fields

/-- The `InvoiceItem` dataclass: `name` and `unit_price` are mandatory;
`discount`, `load_data_from_stock`, `quantity` and `use_document_currency`
have numeric defaults, everything else defaults to `None`. -/
structure InvoiceItem where
  name : Json
  unit_price : Json
  description : Json := Json.null
  discount : Json := Json.num 0
  discount_description : Json := Json.null
  load_data_from_stock : Json := Json.num 0
  quantity : Json := Json.num 1
  sku : Json := Json.null
  stock_item_id : Json := Json.null
  tax : Json := Json.null
  unit : Json := Json.null
  use_document_currency : Json := Json.num 0

/-- `dataclasses.asdict` on an `InvoiceItem`. -/
def InvoiceItem.fields (it : InvoiceItem) : List (String × Json) :=
  [("name", it.name), ("unit_price", it.unit_price), ("description", it.description),
   ("discount", it.discount), ("discount_description", it.discount_description),
   ("load_data_from_stock", it.load_data_from_stock), ("quantity", it.quantity),
   ("sku", it.sku), ("stock_item_id", it.stock_item_id), ("tax", it.tax),
   ("unit", it.unit), ("use_document_currency", it.use_document_currency)]

/-- `InvoiceItem.as_dict`: `asdict(self)` with the `None` entries deleted. -/
def InvoiceItem.as_dict (it : InvoiceItem) : List (String × Json) :=
  dropNulls it.fields

/-- The `InvoiceRespModel` dataclass: error code and message from the decoded
response, and the optional invoice id and token. -/
structure InvoiceRespModel where
  error : Json
  error_message : Json
  invoice_id : Option Int := none
  invoice_token : Option Json := none

/-- The envelope built by `Invoice.add` and serialized with
`json.dumps(data, cls=DateEncoder)`: the invoice wire map under `Invoice`,
one wire map per line item (in the given order) under `InvoiceItem`, and the
contact wire map under `Client`. -/
def Invoice.add_data (invoice_model : InvoiceModel) (items : List InvoiceItem)
    (contact : ClientContactModel) : Json :=
  dateEncode (Json.obj
    [("Invoice", Json.obj invoice_model.as_dict),
     ("InvoiceItem", Json.arr (items.map (fun item => Json.obj item.as_dict))),
     ("Client", Json.obj contact.as_dict)])

/-- The response interpretation inside `Invoice.add`: reads `error` and
`error_message` (a missing key raises `KeyError`), then fills `invoice_id`
(through `int(...)`) and `invoice_token` only when the decoded response
contains a nested `data`/`Invoice` payload. -/
def Invoice.add_resp (resp : Json) : Except PyExc InvoiceRespModel := do
  let e ← resp.getItem "error"
  let m ← resp.getItem "error_message"
  let hasData ← pyIn "data" resp
  if hasData then
    let dataj ← resp.getItem "data"
    let hasInvoice ← pyIn "Invoice" dataj
    if hasInvoice then
      let invj ← dataj.getItem "Invoice"
      let idj ← invj.getItem "id"
      let idv ← pyInt idj
      let tok ← invj.getItem "token"
      Except.ok { error := e, error_message := m, invoice_id := some idv,
                  invoice_token := some tok }
    else
      Except.ok { error := e, error_message := m }
  else
    Except.ok { error := e, error_message := m }

/-- `Invoice.add`: serializes the envelope, submits it through the transport
(`post` on `invoices/create`, abstracted as the `transport` argument), and
interprets the decoded response. -/
def Invoice.add (invoice_model : InvoiceModel) (items : List InvoiceItem)
    (contact : ClientContactModel) (transport : Json → Except PyExc Json) :
    Except PyExc InvoiceRespModel :=
  match transport (Invoice.add_data invoice_model items contact) with
  | Except.error e => Except.error e
  | Except.ok resp => Invoice.add_resp resp

/-- `str()` of an `Optional[int]`, as interpolated by an f-string. -/
def pyStrOptInt : Option Int → String
  | none => "None"
  | some n => toString n

/-- `str()` of an optional decoded value, as interpolated by an f-string. -/
def pyStrOpt : Option Json → String
  | none => "None"
  | some j => pyStr j

/-- The path composed by `Invoice.get_pdf`:
`f"{language}/invoices/pdf/{invoice.invoice_id}/token:{invoice.invoice_token}"`. -/
def Invoice.get_pdf_url (invoice : InvoiceRespModel) (language : String) : String :=
  language ++ "/invoices/pdf/" ++ pyStrOptInt invoice.invoice_id ++ "/token:"
    ++ pyStrOpt invoice.invoice_token

/-- The keyword parameters that a call to `SuperFakturaAPI.get` can bind
(its signature is `get(self, endpoint, timeout=5)`). -/
def SuperFakturaAPI.getKeywordParams : List String := ["endpoint", "timeout"]

/-- A call to `SuperFakturaAPI.get` with extra keyword arguments: Python
binds keywords against the signature first, and an unexpected keyword raises
`TypeError` before the request is issued. -/
def SuperFakturaAPI.callGetWithKeywords (api : SuperFakturaAPI) (endpoint : String)
    (keywords : List String) (resp : HttpResponse) : Except PyExc Json :=
  match keywords.find? (fun kw => !SuperFakturaAPI.getKeywordParams.contains kw) with
  | some kw => Except.error (PyExc.typeError
      ("get() got an unexpected keyword argument " ++ kw))
  | none => api.get endpoint resp

/-- `Invoice.get_pdf`: composes the language/id/token path and then evaluates
`self.get(url, data_format=DataFormat.PDF)["pdf"]`. The `get` method of the
transport accepts no `data_format` keyword, so the call itself raises
`TypeError`; `download` is never invoked. -/
def Invoice.get_pdf (api : SuperFakturaAPI) (invoice : InvoiceRespModel) (language : String)
    (resp : HttpResponse) : Except PyExc Json :=
  match SuperFakturaAPI.callGetWithKeywords api (Invoice.get_pdf_url invoice language)
      ["data_format"] resp with
  | Except.error e => Except.error e
  | Except.ok r => r.getItem "pdf"

/-- The scan inside `BankAccount.default`: walks the decoded entries in
order; the first entry whose `BankAccount.default` value is truthy is mapped
through `BankAccountModel.from_dict`; if the loop finishes, the
no-default-bank-account exception is raised. -/
def BankAccount.defaultScan : List Json → Except PyExc BankAccountModel
  | [] => Except.error (PyExc.noDefaultBankAccountException "No default bank account found")
  | account :: rest => do
    let ba ← account.getItem "BankAccount"
    let df ← ba.getItem "default"
    if pyTruthy df then
      match ba with
      | Json.obj kvs => BankAccountModel.from_dict kvs
      | _ => Except.error (PyExc.typeError "argument of type is not a mapping")
    else
      BankAccount.defaultScan rest

/-- `BankAccount.default`: indexes the decoded list response at
`BankAccounts` and scans the entries in server order. Iteration over a value
that is not a decoded list is modelled as `TypeError`. -/
def BankAccount.default (resp : Json) : Except PyExc BankAccountModel := do
  let accounts ← resp.getItem "BankAccounts"
  match accounts with
  | Json.arr xs => BankAccount.defaultScan xs
  | _ => Except.error (PyExc.typeError "value is not iterable")
theorem Json.isNull_iff (v : Json) : v.isNull = true ↔ v = Json.null := by
  cases v <;> simp [Json.isNull]

theorem assoc_none_of_not_mem_keys (kvs : List (String × Json)) (k : String)
    (h : k ∉ kvs.map Prod.fst) : assoc kvs k = none := by
  induction kvs with
  | nil => rfl
  | cons hd tl ih =>
    obtain ⟨a, b⟩ := hd
    simp only [List.map_cons, List.mem_cons] at h
    push_neg at h
    simp only [assoc]
    rw [if_neg (fun hh => h.1 hh.symm)]
    exact ih h.2

theorem assoc_dropNulls (kvs : List (String × Json)) (k : String) (v : Json)
    (hnd : (kvs.map Prod.fst).Nodup) (hmem : (k, v) ∈ kvs) :
    assoc (dropNulls kvs) k = if v.isNull then none else some v := by
  induction kvs with
  | nil => simp at hmem
  | cons hd tl ih =>
    obtain ⟨a, b⟩ := hd
    simp only [List.map_cons, List.nodup_cons] at hnd
    rcases List.mem_cons.mp hmem with heq | htl
    · obtain ⟨h1, h2⟩ := Prod.mk.injEq .. |>.mp heq
      subst h1; subst h2
      simp only [dropNulls, List.filter_cons]
      by_cases hb : v.isNull
      · rw [if_neg (by simp [hb] : ¬((!v.isNull) = true)), if_pos hb]
        exact assoc_none_of_not_mem_keys _ _ (fun hk => hnd.1 (by
          obtain ⟨p, hp, hpk⟩ := List.mem_map.mp hk
          exact List.mem_map.mpr ⟨p, List.mem_of_mem_filter hp, hpk⟩))
      · rw [if_pos (by simp [hb] : (!v.isNull) = true), if_neg hb]
        simp [assoc]
    · have hk : k ∈ tl.map Prod.fst := List.mem_map.mpr ⟨(k, v), htl, rfl⟩
      have hak : a ≠ k := fun hh => hnd.1 (hh ▸ hk)
      simp only [dropNulls, List.filter_cons]
      by_cases hb : b.isNull
      · rw [if_neg (by simp [hb] : ¬((!b.isNull) = true))]
        exact ih hnd.2 htl
      · rw [if_pos (by simp [hb] : (!b.isNull) = true)]
        simp only [assoc, if_neg hak]
        exact ih hnd.2 htl

theorem jget_dropNulls (kvs : List (String × Json)) (k : String) (v : Json)
    (hnd : (kvs.map Prod.fst).Nodup) (hmem : (k, v) ∈ kvs) :
    jget (dropNulls kvs) k = v := by
  unfold jget
  rw [assoc_dropNulls kvs k v hnd hmem]
  by_cases hv : v.isNull
  · rw [if_pos hv, Option.getD_none, (Json.isNull_iff v).mp hv]
  · rw [if_neg hv, Option.getD_some]

theorem assoc_dropNulls_not_null (kvs : List (String × Json)) (k : String) (v : Json)
    (h : assoc (dropNulls kvs) k = some v) : v.isNull = false := by
  induction kvs with
  | nil => simp [dropNulls, assoc] at h
  | cons hd tl ih =>
    obtain ⟨a, b⟩ := hd
    simp only [dropNulls, List.filter_cons] at h ih
    by_cases hb : b.isNull
    · rw [if_neg (by simp [hb] : ¬((!b.isNull) = true))] at h
      exact ih h
    · rw [if_pos (by simp [hb] : (!b.isNull) = true)] at h
      simp only [assoc] at h
      by_cases hak : a = k
      · rw [if_pos hak, Option.some.injEq] at h
        rw [← h]
        simpa using hb
      · rw [if_neg hak] at h
        exact ih h

theorem dateEncodeList_eq_map (xs : List Json) : dateEncodeList xs = xs.map dateEncode := by
  induction xs with
  | nil => rfl
  | cons x xs ih => simp [dateEncodeList, ih]

theorem dateEncodeObj_eq_map (kvs : List (String × Json)) :
    dateEncodeObj kvs = kvs.map (fun kv => (kv.1, dateEncode kv.2)) := by
  induction kvs with
  | nil => rfl
  | cons hd tl ih =>
    obtain ⟨k, v⟩ := hd
    simp [dateEncodeObj, ih]

/-- The decode-failure message of `get` never coincides with its non-200
status message, whatever the interpolated parts are. -/
theorem get_decode_msg_ne_status_msg (a b c d : String) :
    "Unable to decode response as JSON; " ++ a ++ "; " ++ b ≠
      "Get status code: " ++ c ++ "; " ++ d := by
  intro h
  have h2 := congrArg (fun s : String => s.data.head?) h
  have e1 : ("Unable to decode response as JSON; " ++ a ++ "; " ++ b).data.head? = some 'U' := by
    show (("Unable to decode response as JSON; ".data ++ a.data) ++ "; ".data ++ b.data).head?
      = some 'U'
    simp [List.head?_append]
  have e2 : ("Get status code: " ++ c ++ "; " ++ d).data.head? = some 'G' := by
    show (("Get status code: ".data ++ c.data) ++ "; ".data ++ d.data).head? = some 'G'
    simp [List.head?_append]
  simp only [e1, e2, Option.some.injEq] at h2
  exact absurd h2 (by decide)

/-- Claim C10: constructing a Date with no argument or with the empty string
succeeds and yields the unset state (is_set false) rather than raising; for
such a Date, to_dict and to_json return null, while the string conversion
returns the literal string "None". -/
theorem claim_C10_unset_date :
    Date.init none = Except.ok ⟨none⟩ ∧
    Date.init (some "") = Except.ok ⟨none⟩ ∧
    Date.is_set ⟨none⟩ = false ∧
    Date.to_dict ⟨none⟩ = none ∧
    Date.to_json ⟨none⟩ = none ∧
    Date.str ⟨none⟩ = "None" :=
  ⟨rfl, rfl, rfl, rfl, rfl, rfl⟩

/-- Claim C4: when any of the four configuration values is missing or empty,
construction fails with the missing-credentials error (the embedded
constructor performs no network operation at all); when all four are present
and non-empty, construction succeeds and the authorization header value is
exactly the string SFAPI email=...&apikey=...&company_id=... built from
those values. -/
theorem claim_C4_credentials (env : String → Option String) :
    ((envFalsy (env "SUPERFAKTURA_API_KEY") || envFalsy (env "SUPERFAKTURA_API_URL") ||
      envFalsy (env "SUPERFAKTURA_API_EMAIL") ||
      envFalsy (env "SUPERFAKTURA_API_COMPANY_ID")) = true →
      SuperFakturaAPI.init env = Except.error
        (PyExc.superFakturaAPIMissingCredentialsException
          "Please ensure, that necessary credentials are set. Please see README.md")) ∧
    (∀ k u m c : String,
      env "SUPERFAKTURA_API_KEY" = some k → k ≠ "" →
      env "SUPERFAKTURA_API_URL" = some u → u ≠ "" →
      env "SUPERFAKTURA_API_EMAIL" = some m → m ≠ "" →
      env "SUPERFAKTURA_API_COMPANY_ID" = some c → c ≠ "" →
      SuperFakturaAPI.init env = Except.ok
        { _api_url := u,
          _auth_header := "SFAPI email=" ++ m ++ "&apikey=" ++ k ++ "&company_id=" ++ c }) := by
  constructor
  · intro h
    unfold SuperFakturaAPI.init
    rw [if_pos h]
  · intro k u m c hk hk0 hu hu0 hm hm0 hc hc0
    unfold SuperFakturaAPI.init
    rw [hk, hu, hm, hc]
    rw [if_neg (by simp [envFalsy, hk0, hu0, hm0, hc0])]
    simp [Option.getD_some]

theorem claim_C4_credentials_witness :
    SuperFakturaAPI.init (fun _ => none) = Except.error
      (PyExc.superFakturaAPIMissingCredentialsException
        "Please ensure, that necessary credentials are set. Please see README.md") ∧
    SuperFakturaAPI.init (fun v =>
        if v = "SUPERFAKTURA_API_KEY" then some "test_key"
        else if v = "SUPERFAKTURA_API_URL" then some "https://api.superfaktura.cz"
        else if v = "SUPERFAKTURA_API_EMAIL" then some "test_email"
        else if v = "SUPERFAKTURA_API_COMPANY_ID" then some "test_company_id"
        else none) = Except.ok
      { _api_url := "https://api.superfaktura.cz",
        _auth_header :=
          "SFAPI email=" ++ "test_email" ++ "&apikey=" ++ "test_key" ++ "&company_id="
            ++ "test_company_id" } :=
  ⟨(claim_C4_credentials (fun _ => none)).1 rfl,
   (claim_C4_credentials _).2 "test_key" "https://api.superfaktura.cz" "test_email"
     "test_company_id" rfl (by decide) rfl (by decide) rfl (by decide) rfl (by decide)⟩

/-- Claim C2: the read operation: on status 200 with a decodable body it
returns the decoded value; on status 200 with an undecodable body it raises
the decode-failure exception carrying the raw bytes and the parse failure,
whose message never coincides with a non-200 status message; on any other
status it raises the exception carrying the status code and the raw bytes. -/
theorem claim_C2_get (api : SuperFakturaAPI) (endpoint : String) (resp : HttpResponse) :
    (resp.status_code = 200 → ∀ j, resp.json = Except.ok j →
      api.get endpoint resp = Except.ok j) ∧
    (resp.status_code = 200 → ∀ e, resp.json = Except.error e →
      api.get endpoint resp = Except.error (PyExc.superFakturaAPIException
        ("Unable to decode response as JSON; " ++ pyBytesRepr resp.content ++ "; " ++ e))) ∧
    (resp.status_code ≠ 200 →
      api.get endpoint resp = Except.error (PyExc.superFakturaAPIException
        ("Get status code: " ++ toString resp.status_code ++ "; " ++ pyBytesRepr resp.content))) ∧
    (∀ e, "Unable to decode response as JSON; " ++ pyBytesRepr resp.content ++ "; " ++ e ≠
      "Get status code: " ++ toString resp.status_code ++ "; " ++ pyBytesRepr resp.content) := by
  refine ⟨?_, ?_, ?_, ?_⟩
  · intro h j hj
    unfold SuperFakturaAPI.get
    rw [if_pos h, hj]
  · intro h e he
    unfold SuperFakturaAPI.get
    rw [if_pos h, he]
  · intro h
    unfold SuperFakturaAPI.get
    rw [if_neg h]
  · intro e
    exact get_decode_msg_ne_status_msg (pyBytesRepr resp.content) e
      (toString resp.status_code) (pyBytesRepr resp.content)

theorem claim_C2_get_witness :
    SuperFakturaAPI.get ⟨"https://api.superfaktura.cz", "SFAPI h"⟩ "invoices"
        ⟨200, "raw", Except.ok (Json.obj [("data", Json.str "test")])⟩
      = Except.ok (Json.obj [("data", Json.str "test")]) ∧
    SuperFakturaAPI.get ⟨"https://api.superfaktura.cz", "SFAPI h"⟩ "invoices"
        ⟨200, "oops", Except.error "Expecting value: line 1 column 1 (char 0)"⟩
      = Except.error (PyExc.superFakturaAPIException
          ("Unable to decode response as JSON; " ++ pyBytesRepr "oops" ++ "; "
            ++ "Expecting value: line 1 column 1 (char 0)")) ∧
    SuperFakturaAPI.get ⟨"https://api.superfaktura.cz", "SFAPI h"⟩ "invoices"
        ⟨404, "not found", Except.error "x"⟩
      = Except.error (PyExc.superFakturaAPIException
          ("Get status code: " ++ toString (404 : Nat) ++ "; " ++ pyBytesRepr "not found")) :=
  ⟨(claim_C2_get ⟨"https://api.superfaktura.cz", "SFAPI h"⟩ "invoices"
      ⟨200, "raw", Except.ok (Json.obj [("data", Json.str "test")])⟩).1 rfl _ rfl,
   (claim_C2_get ⟨"https://api.superfaktura.cz", "SFAPI h"⟩ "invoices"
      ⟨200, "oops", Except.error "Expecting value: line 1 column 1 (char 0)"⟩).2.1 rfl _ rfl,
   (claim_C2_get ⟨"https://api.superfaktura.cz", "SFAPI h"⟩ "invoices"
      ⟨404, "not found", Except.error "x"⟩).2.2.1 (by decide)⟩

/-- Claim C5: the binary fetch: on status 200 with a writable sink it issues
exactly one write of the received body; on status 200 with a non-writable
sink it raises the API exception and writes nothing; on any other status it
raises the API exception carrying the status code and raw body and writes
nothing. -/
theorem claim_C5_download (api : SuperFakturaAPI) (endpoint : String) (resp : HttpResponse)
    (descriptor : Sink) :
    (resp.status_code = 200 → descriptor.writable = true →
      api.download endpoint resp descriptor = ([resp.content], none)) ∧
    (resp.status_code = 200 → descriptor.writable = false →
      api.download endpoint resp descriptor = ([], some (PyExc.superFakturaAPIException
        ("Descriptor " ++ descriptor.name ++ " is not writable")))) ∧
    (resp.status_code ≠ 200 →
      api.download endpoint resp descriptor = ([], some (PyExc.superFakturaAPIException
        ("Download status code: " ++ toString resp.status_code ++ "; "
          ++ pyBytesRepr resp.content)))) := by
  refine ⟨?_, ?_, ?_⟩
  · intro h hw
    unfold SuperFakturaAPI.download
    rw [if_pos h, if_pos hw]
  · intro h hw
    unfold SuperFakturaAPI.download
    rw [if_pos h, if_neg (by simp [hw])]
  · intro h
    unfold SuperFakturaAPI.download
    rw [if_neg h]

theorem claim_C5_download_witness :
    SuperFakturaAPI.download ⟨"https://api.superfaktura.cz", "SFAPI h"⟩ "x/invoices/pdf/1"
        ⟨200, "test_content", Except.error "not json"⟩ ⟨"file", true⟩
      = (["test_content"], none) ∧
    SuperFakturaAPI.download ⟨"https://api.superfaktura.cz", "SFAPI h"⟩ "x/invoices/pdf/1"
        ⟨200, "test_content", Except.error "not json"⟩ ⟨"file", false⟩
      = ([], some (PyExc.superFakturaAPIException
          ("Descriptor " ++ "file" ++ " is not writable"))) ∧
    SuperFakturaAPI.download ⟨"https://api.superfaktura.cz", "SFAPI h"⟩ "x/invoices/pdf/1"
        ⟨404, "missing", Except.error "not json"⟩ ⟨"file", true⟩
      = ([], some (PyExc.superFakturaAPIException
          ("Download status code: " ++ toString (404 : Nat) ++ "; " ++ pyBytesRepr "missing"))) :=
  ⟨(claim_C5_download ⟨"https://api.superfaktura.cz", "SFAPI h"⟩ "x/invoices/pdf/1"
      ⟨200, "test_content", Except.error "not json"⟩ ⟨"file", true⟩).1 rfl rfl,
   (claim_C5_download ⟨"https://api.superfaktura.cz", "SFAPI h"⟩ "x/invoices/pdf/1"
      ⟨200, "test_content", Except.error "not json"⟩ ⟨"file", false⟩).2.1 rfl rfl,
   (claim_C5_download ⟨"https://api.superfaktura.cz", "SFAPI h"⟩ "x/invoices/pdf/1"
      ⟨404, "missing", Except.error "not json"⟩ ⟨"file", true⟩).2.2 (by decide)⟩

/-- Claim C3 counterexample: on a 200 response whose body is not valid JSON,
post propagates the raw JSON decode exception instead of wrapping it, and on
a non-200 response whose body is not valid JSON it also propagates the raw
decode exception instead of an API exception carrying the status and raw
body; the propagated exception differs from both wrapped forms. -/
theorem claim_C3_counterexample :
    SuperFakturaAPI.post ⟨"https://api.superfaktura.cz", "SFAPI h"⟩ "invoices/create" "payload"
        ⟨200, "not json", Except.error "Expecting value: line 1 column 1 (char 0)"⟩
      = Except.error (PyExc.jsonDecodeError "Expecting value: line 1 column 1 (char 0)") ∧
    SuperFakturaAPI.post ⟨"https://api.superfaktura.cz", "SFAPI h"⟩ "invoices/create" "payload"
        ⟨404, "gateway timeout page", Except.error "Expecting value: line 1 column 1 (char 0)"⟩
      = Except.error (PyExc.jsonDecodeError "Expecting value: line 1 column 1 (char 0)") ∧
    PyExc.jsonDecodeError "Expecting value: line 1 column 1 (char 0)" ≠
      PyExc.superFakturaAPIException
        ("Post status code: " ++ toString (404 : Nat) ++ "; "
          ++ pyBytesRepr "gateway timeout page") ∧
    PyExc.jsonDecodeError "Expecting value: line 1 column 1 (char 0)" ≠
      PyExc.superFakturaAPIException
        ("Unable to decode response as JSON; " ++ pyBytesRepr "not json" ++ "; "
          ++ "Expecting value: line 1 column 1 (char 0)") :=
  ⟨rfl, rfl, by decide, by decide⟩

/-- Claim C3 as amended: post returns the decoded value on a decodable 200
body; on a 200 body that is not valid JSON it raises the underlying JSON
decode exception unwrapped (without the raw bytes); on a non-200 status
whose body decodes as JSON it raises the API exception carrying the status
code and the decoded body (not the raw bytes); on a non-200 status whose
body is not valid JSON the JSON decode exception propagates instead of an
API exception. -/
theorem claim_C3_post_amended (api : SuperFakturaAPI) (endpoint : String) (data : String)
    (resp : HttpResponse) :
    (resp.status_code = 200 → ∀ j, resp.json = Except.ok j →
      api.post endpoint data resp = Except.ok j) ∧
    (resp.status_code = 200 → ∀ e, resp.json = Except.error e →
      api.post endpoint data resp = Except.error (PyExc.jsonDecodeError e)) ∧
    (resp.status_code ≠ 200 → ∀ j, resp.json = Except.ok j →
      api.post endpoint data resp = Except.error (PyExc.superFakturaAPIException
        ("Post status code: " ++ toString resp.status_code ++ "; " ++ pyStr j))) ∧
    (resp.status_code ≠ 200 → ∀ e, resp.json = Except.error e →
      api.post endpoint data resp = Except.error (PyExc.jsonDecodeError e)) := by
  refine ⟨?_, ?_, ?_, ?_⟩
  · intro h j hj
    unfold SuperFakturaAPI.post
    rw [if_pos h, hj]
  · intro h e he
    unfold SuperFakturaAPI.post
    rw [if_pos h, he]
  · intro h j hj
    unfold SuperFakturaAPI.post
    rw [if_neg h, hj]
  · intro h e he
    unfold SuperFakturaAPI.post
    rw [if_neg h, he]

theorem claim_C3_post_amended_witness :
    SuperFakturaAPI.post ⟨"https://api.superfaktura.cz", "SFAPI h"⟩ "invoices/create" "payload"
        ⟨200, "raw", Except.ok (Json.obj [("data", Json.str "test")])⟩
      = Except.ok (Json.obj [("data", Json.str "test")]) ∧
    SuperFakturaAPI.post ⟨"https://api.superfaktura.cz", "SFAPI h"⟩ "invoices/create" "payload"
        ⟨200, "not json", Except.error "Expecting value: line 1 column 2 (char 1)"⟩
      = Except.error (PyExc.jsonDecodeError "Expecting value: line 1 column 2 (char 1)") ∧
    SuperFakturaAPI.post ⟨"https://api.superfaktura.cz", "SFAPI h"⟩ "invoices/create" "payload"
        ⟨404, "raw", Except.ok (Json.obj [("error", Json.str "not found")])⟩
      = Except.error (PyExc.superFakturaAPIException
          ("Post status code: " ++ toString (404 : Nat) ++ "; "
            ++ pyStr (Json.obj [("error", Json.str "not found")]))) :=
  ⟨(claim_C3_post_amended ⟨"https://api.superfaktura.cz", "SFAPI h"⟩ "invoices/create" "payload"
      ⟨200, "raw", Except.ok (Json.obj [("data", Json.str "test")])⟩).1 rfl _ rfl,
   (claim_C3_post_amended ⟨"https://api.superfaktura.cz", "SFAPI h"⟩ "invoices/create" "payload"
      ⟨200, "not json", Except.error "Expecting value: line 1 column 2 (char 1)"⟩).2.1 rfl _ rfl,
   (claim_C3_post_amended ⟨"https://api.superfaktura.cz", "SFAPI h"⟩ "invoices/create" "payload"
      ⟨404, "raw", Except.ok (Json.obj [("error", Json.str "not found")])⟩).2.2.1
        (by decide) _ rfl⟩

theorem clientContact_keys (c : ClientContactModel) :
    c.fields.map Prod.fst = ["name", "address", "bank_account", "bank_code", "city", "comment",
      "country", "country_id", "currency", "default_variable", "delivery_address",
      "delivery_city", "delivery_country", "delivery_country_id", "delivery_name",
      "delivery_phone", "delivery_zip", "dic", "discount", "due_date", "email", "fax", "iban",
      "ic_dph", "ico", "match_address", "phone", "swift", "tags", "uuid", "zip", "update",
      "id"] := rfl

theorem clientContact_keys_nodup (c : ClientContactModel) : (c.fields.map Prod.fst).Nodup := by
  rw [clientContact_keys]
  decide

theorem bankAccount_keys (b : BankAccountModel) :
    b.fields.map Prod.fst
      = ["account", "bank_code", "bank_name", "default", "iban", "show", "swift", "id"] := rfl

theorem bankAccount_keys_nodup (b : BankAccountModel) : (b.fields.map Prod.fst).Nodup := by
  rw [bankAccount_keys]
  decide

theorem invoiceModel_keys (v : InvoiceModel) :
    v.fields.map Prod.fst = ["add_rounding_item", "already_paid", "bank_accounts", "comment",
      "constant", "created", "delivery", "delivery_type", "deposit", "discount",
      "discount_total", "due", "estimate_id", "header_comment", "internal_comment",
      "invoice_currency", "invoice_no_formatted", "issued_by", "issued_by_email",
      "issued_by_phone", "issued_by_web", "logo_id", "mark_sent", "mark_sent_message",
      "mark_sent_subject", "name", "order_no", "parent_id", "paydate", "payment_type",
      "proforma_id", "rounding", "sequence_id", "specific", "tax_document", "type",
      "variable", "vat_transfer"] := rfl

theorem invoiceModel_keys_nodup (v : InvoiceModel) : (v.fields.map Prod.fst).Nodup := by
  rw [invoiceModel_keys]
  decide

theorem invoiceItem_keys (it : InvoiceItem) :
    it.fields.map Prod.fst = ["name", "unit_price", "description", "discount",
      "discount_description", "load_data_from_stock", "quantity", "sku", "stock_item_id",
      "tax", "unit", "use_document_currency"] := rfl

theorem invoiceItem_keys_nodup (it : InvoiceItem) : (it.fields.map Prod.fst).Nodup := by
  rw [invoiceItem_keys]
  decide

theorem clientContact_round_trip (c : ClientContactModel) (h : c.name.isNull = false) :
    ClientContactModel.from_dict c.as_dict = Except.ok c := by
  have hnd := clientContact_keys_nodup c
  have hname : assoc (dropNulls c.fields) "name" = some c.name := by
    rw [assoc_dropNulls c.fields "name" c.name hnd (by simp [ClientContactModel.fields])]
    simp [h]
  have hf_address : jget (dropNulls c.fields) "address" = c.address :=
    jget_dropNulls _ _ _ hnd (by simp [ClientContactModel.fields])
  have hf_bank_account : jget (dropNulls c.fields) "bank_account" = c.bank_account :=
    jget_dropNulls _ _ _ hnd (by simp [ClientContactModel.fields])
  have hf_bank_code : jget (dropNulls c.fields) "bank_code" = c.bank_code :=
    jget_dropNulls _ _ _ hnd (by simp [ClientContactModel.fields])
  have hf_city : jget (dropNulls c.fields) "city" = c.city :=
    jget_dropNulls _ _ _ hnd (by simp [ClientContactModel.fields])
  have hf_comment : jget (dropNulls c.fields) "comment" = c.comment :=
    jget_dropNulls _ _ _ hnd (by simp [ClientContactModel.fields])
  have hf_country : jget (dropNulls c.fields) "country" = c.country :=
    jget_dropNulls _ _ _ hnd (by simp [ClientContactModel.fields])
  have hf_country_id : jget (dropNulls c.fields) "country_id" = c.country_id :=
    jget_dropNulls _ _ _ hnd (by simp [ClientContactModel.fields])
  have hf_currency : jget (dropNulls c.fields) "currency" = c.currency :=
    jget_dropNulls _ _ _ hnd (by simp [ClientContactModel.fields])
  have hf_default_variable : jget (dropNulls c.fields) "default_variable" = c.default_variable :=
    jget_dropNulls _ _ _ hnd (by simp [ClientContactModel.fields])
  have hf_delivery_address : jget (dropNulls c.fields) "delivery_address" = c.delivery_address :=
    jget_dropNulls _ _ _ hnd (by simp [ClientContactModel.fields])
  have hf_delivery_city : jget (dropNulls c.fields) "delivery_city" = c.delivery_city :=
    jget_dropNulls _ _ _ hnd (by simp [ClientContactModel.fields])
  have hf_delivery_country : jget (dropNulls c.fields) "delivery_country" = c.delivery_country :=
    jget_dropNulls _ _ _ hnd (by simp [ClientContactModel.fields])
  have hf_delivery_country_id : jget (dropNulls c.fields) "delivery_country_id" = c.delivery_country_id :=
    jget_dropNulls _ _ _ hnd (by simp [ClientContactModel.fields])
  have hf_delivery_name : jget (dropNulls c.fields) "delivery_name" = c.delivery_name :=
    jget_dropNulls _ _ _ hnd (by simp [ClientContactModel.fields])
  have hf_delivery_phone : jget (dropNulls c.fields) "delivery_phone" = c.delivery_phone :=
    jget_dropNulls _ _ _ hnd (by simp [ClientContactModel.fields])
  have hf_delivery_zip : jget (dropNulls c.fields) "delivery_zip" = c.delivery_zip :=
    jget_dropNulls _ _ _ hnd (by simp [ClientContactModel.fields])
  have hf_dic : jget (dropNulls c.fields) "dic" = c.dic :=
    jget_dropNulls _ _ _ hnd (by simp [ClientContactModel.fields])
  have hf_discount : jget (dropNulls c.fields) "discount" = c.discount :=
    jget_dropNulls _ _ _ hnd (by simp [ClientContactModel.fields])
  have hf_due_date : jget (dropNulls c.fields) "due_date" = c.due_date :=
    jget_dropNulls _ _ _ hnd (by simp [ClientContactModel.fields])
  have hf_email : jget (dropNulls c.fields) "email" = c.email :=
    jget_dropNulls _ _ _ hnd (by simp [ClientContactModel.fields])
  have hf_fax : jget (dropNulls c.fields) "fax" = c.fax :=
    jget_dropNulls _ _ _ hnd (by simp [ClientContactModel.fields])
  have hf_iban : jget (dropNulls c.fields) "iban" = c.iban :=
    jget_dropNulls _ _ _ hnd (by simp [ClientContactModel.fields])
  have hf_ic_dph : jget (dropNulls c.fields) "ic_dph" = c.ic_dph :=
    jget_dropNulls _ _ _ hnd (by simp [ClientContactModel.fields])
  have hf_ico : jget (dropNulls c.fields) "ico" = c.ico :=
    jget_dropNulls _ _ _ hnd (by simp [ClientContactModel.fields])
  have hf_match_address : jget (dropNulls c.fields) "match_address" = c.match_address :=
    jget_dropNulls _ _ _ hnd (by simp [ClientContactModel.fields])
  have hf_phone : jget (dropNulls c.fields) "phone" = c.phone :=
    jget_dropNulls _ _ _ hnd (by simp [ClientContactModel.fields])
  have hf_swift : jget (dropNulls c.fields) "swift" = c.swift :=
    jget_dropNulls _ _ _ hnd (by simp [ClientContactModel.fields])
  have hf_tags : jget (dropNulls c.fields) "tags" = c.tags :=
    jget_dropNulls _ _ _ hnd (by simp [ClientContactModel.fields])
  have hf_uuid : jget (dropNulls c.fields) "uuid" = c.uuid :=
    jget_dropNulls _ _ _ hnd (by simp [ClientContactModel.fields])
  have hf_zip : jget (dropNulls c.fields) "zip" = c.zip :=
    jget_dropNulls _ _ _ hnd (by simp [ClientContactModel.fields])
  have hf_update : jget (dropNulls c.fields) "update" = c.update :=
    jget_dropNulls _ _ _ hnd (by simp [ClientContactModel.fields])
  have hf_id : jget (dropNulls c.fields) "id" = c.id :=
    jget_dropNulls _ _ _ hnd (by simp [ClientContactModel.fields])
  unfold ClientContactModel.from_dict ClientContactModel.as_dict
  rw [hname]
  simp only [hf_address, hf_bank_account, hf_bank_code, hf_city, hf_comment, hf_country, hf_country_id, hf_currency, hf_default_variable, hf_delivery_address, hf_delivery_city, hf_delivery_country, hf_delivery_country_id, hf_delivery_name, hf_delivery_phone, hf_delivery_zip, hf_dic, hf_discount, hf_due_date, hf_email, hf_fax, hf_iban, hf_ic_dph, hf_ico, hf_match_address, hf_phone, hf_swift, hf_tags, hf_uuid, hf_zip, hf_update, hf_id]

theorem bankAccount_round_trip (b : BankAccountModel)
    (h1 : b.account.isNull = false) (h2 : b.bank_code.isNull = false)
    (h3 : b.bank_name.isNull = false) (h4 : b.default.isNull = false)
    (h5 : b.iban.isNull = false) (h6 : b.«show».isNull = false)
    (h7 : b.swift.isNull = false) (h8 : b.id.isNull = false) :
    BankAccountModel.from_dict b.as_dict = Except.ok b := by
  have hnd := bankAccount_keys_nodup b
  have ha1 : assoc (dropNulls b.fields) "account" = some b.account := by
    rw [assoc_dropNulls b.fields "account" b.account hnd (by simp [BankAccountModel.fields])]
    simp [h1]
  have ha2 : assoc (dropNulls b.fields) "bank_code" = some b.bank_code := by
    rw [assoc_dropNulls b.fields "bank_code" b.bank_code hnd (by simp [BankAccountModel.fields])]
    simp [h2]
  have ha3 : assoc (dropNulls b.fields) "bank_name" = some b.bank_name := by
    rw [assoc_dropNulls b.fields "bank_name" b.bank_name hnd (by simp [BankAccountModel.fields])]
    simp [h3]
  have ha4 : assoc (dropNulls b.fields) "default" = some b.default := by
    rw [assoc_dropNulls b.fields "default" b.default hnd (by simp [BankAccountModel.fields])]
    simp [h4]
  have ha5 : assoc (dropNulls b.fields) "iban" = some b.iban := by
    rw [assoc_dropNulls b.fields "iban" b.iban hnd (by simp [BankAccountModel.fields])]
    simp [h5]
  have ha6 : assoc (dropNulls b.fields) "show" = some b.«show» := by
    rw [assoc_dropNulls b.fields "show" b.«show» hnd (by simp [BankAccountModel.fields])]
    simp [h6]
  have ha7 : assoc (dropNulls b.fields) "swift" = some b.swift := by
    rw [assoc_dropNulls b.fields "swift" b.swift hnd (by simp [BankAccountModel.fields])]
    simp [h7]
  have ha8 : assoc (dropNulls b.fields) "id" = some b.id := by
    rw [assoc_dropNulls b.fields "id" b.id hnd (by simp [BankAccountModel.fields])]
    simp [h8]
  unfold BankAccountModel.from_dict BankAccountModel.as_dict
  rw [ha1, ha2, ha3, ha4, ha5, ha6, ha7, ha8]

/-- Claim C1 counterexample: a caller-constructed bank-account record with
unset fields does not survive the round trip: the wire map drops the unset
fields and `from_dict` then fails with `TypeError` because every declared
field of `BankAccountModel` is a required constructor argument. -/
theorem claim_C1_counterexample :
    BankAccountModel.from_dict (BankAccountModel.as_dict
      ⟨Json.null, Json.null, Json.null, Json.num 1, Json.str "SK123", Json.null,
        Json.null, Json.null⟩)
    = Except.error (PyExc.typeError
        "BankAccountModel.__init__ missing required positional arguments") := rfl

/-- Claim C1 (amended): fields left unset (None) by the caller never appear
as keys of the wire map, for all four record types with a to-wire-map
operation; the round trip from_wire_map(to_wire_map(r)) restores r exactly
for every client contact whose mandatory name is set, and for every bank
account record in which every field is set — for a bank account with any
unset field the round trip instead raises TypeError, since every declared
field of that record is a required constructor argument. -/
theorem claim_C1_round_trip_amended :
    (∀ c : ClientContactModel, c.name.isNull = false →
      ClientContactModel.from_dict c.as_dict = Except.ok c) ∧
    (∀ b : BankAccountModel, b.account.isNull = false → b.bank_code.isNull = false →
      b.bank_name.isNull = false → b.default.isNull = false → b.iban.isNull = false →
      b.«show».isNull = false → b.swift.isNull = false → b.id.isNull = false →
      BankAccountModel.from_dict b.as_dict = Except.ok b) ∧
    (∀ (v : InvoiceModel) (k : String) (x : Json), (k, x) ∈ v.fields → x.isNull = true →
      assoc v.as_dict k = none) ∧
    (∀ (it : InvoiceItem) (k : String) (x : Json), (k, x) ∈ it.fields → x.isNull = true →
      assoc it.as_dict k = none) ∧
    (∀ (c : ClientContactModel) (k : String) (x : Json), (k, x) ∈ c.fields → x.isNull = true →
      assoc c.as_dict k = none) ∧
    (∀ (b : BankAccountModel) (k : String) (x : Json), (k, x) ∈ b.fields → x.isNull = true →
      assoc b.as_dict k = none) := by
  refine ⟨clientContact_round_trip, bankAccount_round_trip, ?_, ?_, ?_, ?_⟩
  · intro v k x hm hx
    rw [show v.as_dict = dropNulls v.fields from rfl,
      assoc_dropNulls v.fields k x (invoiceModel_keys_nodup v) hm, if_pos hx]
  · intro it k x hm hx
    rw [show it.as_dict = dropNulls it.fields from rfl,
      assoc_dropNulls it.fields k x (invoiceItem_keys_nodup it) hm, if_pos hx]
  · intro c k x hm hx
    rw [show c.as_dict = dropNulls c.fields from rfl,
      assoc_dropNulls c.fields k x (clientContact_keys_nodup c) hm, if_pos hx]
  · intro b k x hm hx
    rw [show b.as_dict = dropNulls b.fields from rfl,
      assoc_dropNulls b.fields k x (bankAccount_keys_nodup b) hm, if_pos hx]

theorem claim_C1_round_trip_amended_witness :
    ClientContactModel.from_dict (ClientContactModel.as_dict
        { name := Json.str "Richard", email := Json.str "k@e.com" })
      = Except.ok { name := Json.str "Richard", email := Json.str "k@e.com" } ∧
    BankAccountModel.from_dict (BankAccountModel.as_dict
        ⟨Json.str "123", Json.str "0100", Json.str "Bank", Json.num 1, Json.str "SK123",
          Json.num 1, Json.str "SWIFT", Json.num 7⟩)
      = Except.ok ⟨Json.str "123", Json.str "0100", Json.str "Bank", Json.num 1,
          Json.str "SK123", Json.num 1, Json.str "SWIFT", Json.num 7⟩ ∧
    assoc (InvoiceModel.as_dict {}) "due" = none ∧
    assoc (InvoiceItem.as_dict { name := Json.str "Services", unit_price := Json.num 100 })
      "tax" = none ∧
    assoc (ClientContactModel.as_dict { name := Json.str "Richard" }) "phone" = none ∧
    assoc (BankAccountModel.as_dict
        ⟨Json.null, Json.str "0100", Json.str "Bank", Json.num 1, Json.str "SK123",
          Json.num 1, Json.str "SWIFT", Json.num 7⟩) "account" = none :=
  ⟨claim_C1_round_trip_amended.1 _ rfl,
   claim_C1_round_trip_amended.2.1 _ rfl rfl rfl rfl rfl rfl rfl rfl,
   claim_C1_round_trip_amended.2.2.1 {} "due" Json.null
     (by simp [InvoiceModel.fields]) rfl,
   claim_C1_round_trip_amended.2.2.2.1 _ "tax" Json.null
     (by simp [InvoiceItem.fields]) rfl,
   claim_C1_round_trip_amended.2.2.2.2.1 _ "phone" Json.null
     (by simp [ClientContactModel.fields]) rfl,
   claim_C1_round_trip_amended.2.2.2.2.2 _ "account" Json.null
     (by simp [BankAccountModel.fields]) rfl⟩

theorem exbind_ok {γ : Type u} {α β : Type v} (a : α) (f : α → Except γ β) :
    (Bind.bind (Except.ok a) f : Except γ β) = f a := rfl

theorem add_resp_no_data (kvs : List (String × Json)) (e m : Json)
    (he : assoc kvs "error" = some e) (hm : assoc kvs "error_message" = some m)
    (hd : assoc kvs "data" = none) :
    Invoice.add_resp (Json.obj kvs) = Except.ok { error := e, error_message := m } := by
  have g1 : (Json.obj kvs).getItem "error" = Except.ok e := by
    simp [Json.getItem, he]
  have g2 : (Json.obj kvs).getItem "error_message" = Except.ok m := by
    simp [Json.getItem, hm]
  have g3 : pyIn "data" (Json.obj kvs) = Except.ok false := by
    simp [pyIn, hd]
  unfold Invoice.add_resp
  rw [g1, exbind_ok, g2, exbind_ok, g3, exbind_ok, if_neg (by decide)]

theorem add_resp_no_invoice (kvs dkvs : List (String × Json)) (e m : Json)
    (he : assoc kvs "error" = some e) (hm : assoc kvs "error_message" = some m)
    (hd : assoc kvs "data" = some (Json.obj dkvs)) (hi : assoc dkvs "Invoice" = none) :
    Invoice.add_resp (Json.obj kvs) = Except.ok { error := e, error_message := m } := by
  have g1 : (Json.obj kvs).getItem "error" = Except.ok e := by
    simp [Json.getItem, he]
  have g2 : (Json.obj kvs).getItem "error_message" = Except.ok m := by
    simp [Json.getItem, hm]
  have g3 : pyIn "data" (Json.obj kvs) = Except.ok true := by
    simp [pyIn, hd]
  have g4 : (Json.obj kvs).getItem "data" = Except.ok (Json.obj dkvs) := by
    simp [Json.getItem, hd]
  have g5 : pyIn "Invoice" (Json.obj dkvs) = Except.ok false := by
    simp [pyIn, hi]
  unfold Invoice.add_resp
  rw [g1, exbind_ok, g2, exbind_ok, g3, exbind_ok, if_pos rfl, g4, exbind_ok, g5, exbind_ok,
    if_neg (by decide)]

theorem add_resp_with_invoice (kvs dkvs ikvs : List (String × Json)) (e m idj tok : Json)
    (n : Int)
    (he : assoc kvs "error" = some e) (hm : assoc kvs "error_message" = some m)
    (hd : assoc kvs "data" = some (Json.obj dkvs))
    (hi : assoc dkvs "Invoice" = some (Json.obj ikvs))
    (hid : assoc ikvs "id" = some idj) (hn : pyInt idj = Except.ok n)
    (htok : assoc ikvs "token" = some tok) :
    Invoice.add_resp (Json.obj kvs) = Except.ok
      { error := e, error_message := m, invoice_id := some n, invoice_token := some tok } := by
  have g1 : (Json.obj kvs).getItem "error" = Except.ok e := by
    simp [Json.getItem, he]
  have g2 : (Json.obj kvs).getItem "error_message" = Except.ok m := by
    simp [Json.getItem, hm]
  have g3 : pyIn "data" (Json.obj kvs) = Except.ok true := by
    simp [pyIn, hd]
  have g4 : (Json.obj kvs).getItem "data" = Except.ok (Json.obj dkvs) := by
    simp [Json.getItem, hd]
  have g5 : pyIn "Invoice" (Json.obj dkvs) = Except.ok true := by
    simp [pyIn, hi]
  have g6 : (Json.obj dkvs).getItem "Invoice" = Except.ok (Json.obj ikvs) := by
    simp [Json.getItem, hi]
  have g7 : (Json.obj ikvs).getItem "id" = Except.ok idj := by
    simp [Json.getItem, hid]
  have g8 : (Json.obj ikvs).getItem "token" = Except.ok tok := by
    simp [Json.getItem, htok]
  unfold Invoice.add_resp
  rw [g1, exbind_ok, g2, exbind_ok, g3, exbind_ok, if_pos rfl, g4, exbind_ok, g5, exbind_ok,
    if_pos rfl, g6, exbind_ok, g7, exbind_ok, hn, exbind_ok, g8, exbind_ok]

/-- Claim C6: Invoice.add serializes the invoice, the line items (one wire
map each, in the given order) and the contact into one envelope keyed
Invoice, InvoiceItem and Client, submits it through the transport, and the
returned record takes error and error_message from the decoded response;
invoice_id (as an integer) and invoice_token are populated exactly when the
response holds a nested data.Invoice payload, and a missing payload is not
an error — both fields simply stay unset. -/
theorem claim_C6_invoice_add (invoice_model : InvoiceModel) (items : List InvoiceItem)
    (contact : ClientContactModel) (transport : Json → Except PyExc Json) :
    Invoice.add_data invoice_model items contact = Json.obj
      [("Invoice", dateEncode (Json.obj invoice_model.as_dict)),
       ("InvoiceItem", Json.arr (items.map (fun item => dateEncode (Json.obj item.as_dict)))),
       ("Client", dateEncode (Json.obj contact.as_dict))] ∧
    (∀ kvs e m, transport (Invoice.add_data invoice_model items contact) = Except.ok (Json.obj kvs) →
      assoc kvs "error" = some e → assoc kvs "error_message" = some m →
      ((assoc kvs "data" = none →
        Invoice.add invoice_model items contact transport
          = Except.ok { error := e, error_message := m }) ∧
       (∀ dkvs, assoc kvs "data" = some (Json.obj dkvs) → assoc dkvs "Invoice" = none →
        Invoice.add invoice_model items contact transport
          = Except.ok { error := e, error_message := m }) ∧
       (∀ dkvs ikvs idj tok n, assoc kvs "data" = some (Json.obj dkvs) →
        assoc dkvs "Invoice" = some (Json.obj ikvs) →
        assoc ikvs "id" = some idj → pyInt idj = Except.ok n →
        assoc ikvs "token" = some tok →
        Invoice.add invoice_model items contact transport
          = Except.ok { error := e, error_message := m, invoice_id := some n,
                        invoice_token := some tok }))) := by
  constructor
  · unfold Invoice.add_data
    simp [dateEncode, dateEncodeObj, dateEncodeList_eq_map, List.map_map, Function.comp]
  · intro kvs e m ht he hm
    refine ⟨?_, ?_, ?_⟩
    · intro hd
      unfold Invoice.add
      rw [ht]
      exact add_resp_no_data kvs e m he hm hd
    · intro dkvs hd hi
      unfold Invoice.add
      rw [ht]
      exact add_resp_no_invoice kvs dkvs e m he hm hd hi
    · intro dkvs ikvs idj tok n hd hi hid hn htok
      unfold Invoice.add
      rw [ht]
      exact add_resp_with_invoice kvs dkvs ikvs e m idj tok n he hm hd hi hid hn htok

theorem claim_C6_invoice_add_witness :
    Invoice.add {} [{ name := Json.str "Services", unit_price := Json.num 100 }]
        { name := Json.str "Richard" }
        (fun _ => Except.ok (Json.obj
          [("error", Json.num 0), ("error_message", Json.str "OK"),
           ("data", Json.obj [("Invoice", Json.obj
             [("id", Json.str "42"), ("token", Json.str "abc")])])]))
      = Except.ok { error := Json.num 0, error_message := Json.str "OK",
                    invoice_id := some 42, invoice_token := some (Json.str "abc") } ∧
    Invoice.add {} [] { name := Json.str "Richard" }
        (fun _ => Except.ok (Json.obj
          [("error", Json.num 0), ("error_message", Json.str "OK")]))
      = Except.ok { error := Json.num 0, error_message := Json.str "OK" } :=
  ⟨((claim_C6_invoice_add {} [{ name := Json.str "Services", unit_price := Json.num 100 }]
      { name := Json.str "Richard" }
      (fun _ => Except.ok (Json.obj
        [("error", Json.num 0), ("error_message", Json.str "OK"),
         ("data", Json.obj [("Invoice", Json.obj
           [("id", Json.str "42"), ("token", Json.str "abc")])])]))).2
      _ _ _ rfl rfl rfl).2.2 _ _ _ _ _ rfl rfl rfl rfl rfl,
   ((claim_C6_invoice_add {} [] { name := Json.str "Richard" }
      (fun _ => Except.ok (Json.obj
        [("error", Json.num 0), ("error_message", Json.str "OK")]))).2
      _ _ _ rfl rfl rfl).1 rfl⟩

/-- Claim C7 counterexample: on the exact list from the claim, the second
entry has a truthy default flag, but its mapping contains only the keys
default and iban, so `from_dict` raises `TypeError` (every declared field of
`BankAccountModel` is a required constructor argument) instead of returning
the mapped record with iban SK123. -/
theorem claim_C7_counterexample :
    BankAccount.default (Json.obj [("BankAccounts", Json.arr
      [Json.obj [("BankAccount", Json.obj [("default", Json.num 0)])],
       Json.obj [("BankAccount", Json.obj
         [("default", Json.num 1), ("iban", Json.str "SK123")])]])])
    = Except.error (PyExc.typeError
        "BankAccountModel.__init__ missing required positional arguments") := rfl

/-- Claim C7 (amended): default() scans the decoded entries in server order:
a falsy default flag moves to the next entry, the first truthy default flag
maps that entry through from_dict — which returns the mapped record when all
eight declared keys are present and raises TypeError otherwise — and an
exhausted list raises the no-default-bank-account exception. -/
theorem claim_C7_bank_default_amended :
    (∀ kvs xs, assoc kvs "BankAccounts" = some (Json.arr xs) →
      BankAccount.default (Json.obj kvs) = BankAccount.defaultScan xs) ∧
    BankAccount.defaultScan []
      = Except.error (PyExc.noDefaultBankAccountException "No default bank account found") ∧
    (∀ (a : Json) rest bkvs df, a.getItem "BankAccount" = Except.ok (Json.obj bkvs) →
      assoc bkvs "default" = some df → pyTruthy df = false →
      BankAccount.defaultScan (a :: rest) = BankAccount.defaultScan rest) ∧
    (∀ (a : Json) rest bkvs df, a.getItem "BankAccount" = Except.ok (Json.obj bkvs) →
      assoc bkvs "default" = some df → pyTruthy df = true →
      BankAccount.defaultScan (a :: rest) = BankAccountModel.from_dict bkvs) ∧
    (∀ bkvs a bc bn df ib sh sw i,
      assoc bkvs "account" = some a → assoc bkvs "bank_code" = some bc →
      assoc bkvs "bank_name" = some bn → assoc bkvs "default" = some df →
      assoc bkvs "iban" = some ib → assoc bkvs "show" = some sh →
      assoc bkvs "swift" = some sw → assoc bkvs "id" = some i →
      BankAccountModel.from_dict bkvs = Except.ok ⟨a, bc, bn, df, ib, sh, sw, i⟩) := by
  refine ⟨?_, rfl, ?_, ?_, ?_⟩
  · intro kvs xs hb
    have g : (Json.obj kvs).getItem "BankAccounts" = Except.ok (Json.arr xs) := by
      simp [Json.getItem, hb]
    unfold BankAccount.default
    rw [g, exbind_ok]
  · intro a rest bkvs df hba hdf htr
    have g : (Json.obj bkvs).getItem "default" = Except.ok df := by
      simp [Json.getItem, hdf]
    conv_lhs => unfold BankAccount.defaultScan
    rw [hba, exbind_ok, g, exbind_ok, if_neg (by simp [htr])]
  · intro a rest bkvs df hba hdf htr
    have g : (Json.obj bkvs).getItem "default" = Except.ok df := by
      simp [Json.getItem, hdf]
    unfold BankAccount.defaultScan
    rw [hba, exbind_ok, g, exbind_ok, if_pos htr]
  · intro bkvs a bc bn df ib sh sw i h1 h2 h3 h4 h5 h6 h7 h8
    unfold BankAccountModel.from_dict
    rw [h1, h2, h3, h4, h5, h6, h7, h8]

theorem claim_C7_bank_default_amended_witness :
    BankAccount.default (Json.obj [("BankAccounts", Json.arr
      [Json.obj [("BankAccount", Json.obj [("default", Json.num 0)])],
       Json.obj [("BankAccount", Json.obj
         [("account", Json.str "2602015389"), ("bank_code", Json.str "8330"),
          ("bank_name", Json.str "Fio banka"), ("default", Json.num 1),
          ("iban", Json.str "SK123"), ("show", Json.num 1),
          ("swift", Json.str "FIOZSKBA"), ("id", Json.num 42)])]])])
    = Except.ok ⟨Json.str "2602015389", Json.str "8330", Json.str "Fio banka", Json.num 1,
        Json.str "SK123", Json.num 1, Json.str "FIOZSKBA", Json.num 42⟩ ∧
    BankAccount.defaultScan []
      = Except.error (PyExc.noDefaultBankAccountException "No default bank account found") :=
by
  refine ⟨?_, claim_C7_bank_default_amended.2.1⟩
  have h1 := claim_C7_bank_default_amended.1
    [("BankAccounts", Json.arr [Json.obj [("BankAccount", Json.obj [("default", Json.num 0)])],
      Json.obj [("BankAccount", Json.obj
        [("account", Json.str "2602015389"), ("bank_code", Json.str "8330"),
          ("bank_name", Json.str "Fio banka"), ("default", Json.num 1),
          ("iban", Json.str "SK123"), ("show", Json.num 1),
          ("swift", Json.str "FIOZSKBA"), ("id", Json.num 42)])]])]
    [Json.obj [("BankAccount", Json.obj [("default", Json.num 0)])],
      Json.obj [("BankAccount", Json.obj
        [("account", Json.str "2602015389"), ("bank_code", Json.str "8330"),
          ("bank_name", Json.str "Fio banka"), ("default", Json.num 1),
          ("iban", Json.str "SK123"), ("show", Json.num 1),
          ("swift", Json.str "FIOZSKBA"), ("id", Json.num 42)])]] rfl
  have h2 := claim_C7_bank_default_amended.2.2.1
    (Json.obj [("BankAccount", Json.obj [("default", Json.num 0)])])
    [Json.obj [("BankAccount", Json.obj
        [("account", Json.str "2602015389"), ("bank_code", Json.str "8330"),
          ("bank_name", Json.str "Fio banka"), ("default", Json.num 1),
          ("iban", Json.str "SK123"), ("show", Json.num 1),
          ("swift", Json.str "FIOZSKBA"), ("id", Json.num 42)])]]
    [("default", Json.num 0)] (Json.num 0) rfl rfl rfl
  have h3 := claim_C7_bank_default_amended.2.2.2.1
    (Json.obj [("BankAccount", Json.obj
        [("account", Json.str "2602015389"), ("bank_code", Json.str "8330"),
          ("bank_name", Json.str "Fio banka"), ("default", Json.num 1),
          ("iban", Json.str "SK123"), ("show", Json.num 1),
          ("swift", Json.str "FIOZSKBA"), ("id", Json.num 42)])]) []
    [("account", Json.str "2602015389"), ("bank_code", Json.str "8330"),
          ("bank_name", Json.str "Fio banka"), ("default", Json.num 1),
          ("iban", Json.str "SK123"), ("show", Json.num 1),
          ("swift", Json.str "FIOZSKBA"), ("id", Json.num 42)] (Json.num 1) rfl rfl rfl
  have h4 := claim_C7_bank_default_amended.2.2.2.2
    [("account", Json.str "2602015389"), ("bank_code", Json.str "8330"),
          ("bank_name", Json.str "Fio banka"), ("default", Json.num 1),
          ("iban", Json.str "SK123"), ("show", Json.num 1),
          ("swift", Json.str "FIOZSKBA"), ("id", Json.num 42)] _ _ _ _ _ _ _ _ rfl rfl rfl rfl rfl rfl rfl rfl
  exact h1.trans (h2.trans (h3.trans h4))

/-- Claim C9: the composed PDF path is exactly
language/invoices/pdf/id/token:token, but the retrieval does not delegate to
the binary fetch operation: get_pdf evaluates
self.get(url, data_format=DataFormat.PDF), and since get accepts no
data_format keyword the call raises TypeError for every input, so download
and the sink are never reached. -/
theorem claim_C9_get_pdf_bug :
    Invoice.get_pdf_url { error := Json.num 0, error_message := Json.str "OK",
                          invoice_id := some 42, invoice_token := some (Json.str "abc") } "slk"
      = "slk/invoices/pdf/42/token:abc" ∧
    Invoice.get_pdf ⟨"https://api.superfaktura.cz", "SFAPI h"⟩
        { error := Json.num 0, error_message := Json.str "OK",
          invoice_id := some 42, invoice_token := some (Json.str "abc") } "slk"
        ⟨200, "pdfbytes", Except.ok (Json.obj [("pdf", Json.str "pdfbytes")])⟩
      = Except.error (PyExc.typeError
          ("get() got an unexpected keyword argument " ++ "data_format")) :=
  ⟨rfl, rfl⟩

theorem isDigitChar_digitChar (d : Nat) : isDigitChar (digitChar d) = true := by
  rcases d with _|_|_|_|_|_|_|_|_|d <;> rfl

theorem charToDigit_digitChar (d : Nat) (h : d ≤ 9) : charToDigit (digitChar d) = d := by
  interval_cases d <;> decide

theorem not_dash_of_allDigits (cs : List Char) (h : allDigits cs = true) : '-' ∉ cs := by
  intro hm
  have := List.all_eq_true.mp h _ hm
  simp [isDigitChar] at this

theorem natToChars_ne_nil (n : Nat) : natToChars n ≠ [] := by
  rw [natToChars]
  by_cases h : n < 10
  · rw [if_pos h]
    exact List.cons_ne_nil _ _
  · rw [if_neg h]
    simp

theorem allDigits_natToChars (n : Nat) : allDigits (natToChars n) = true := by
  induction n using Nat.strong_induction_on with
  | _ n ih =>
    rw [natToChars]
    by_cases h : n < 10
    · rw [if_pos h]
      simp [allDigits, isDigitChar_digitChar]
    · rw [if_neg h]
      have h1 := ih (n / 10) (Nat.div_lt_self (by omega) (by omega))
      simp only [allDigits, List.all_append] at h1 ⊢
      simp [h1, List.all_cons, isDigitChar_digitChar]

theorem digitsToNat_append_last (xs : List Char) (c : Char) :
    digitsToNat (xs ++ [c]) = 10 * digitsToNat xs + charToDigit c := by
  simp [digitsToNat, List.foldl_append]

theorem digitsToNat_natToChars (n : Nat) : digitsToNat (natToChars n) = n := by
  induction n using Nat.strong_induction_on with
  | _ n ih =>
    rw [natToChars]
    by_cases h : n < 10
    · rw [if_pos h]
      show 10 * 0 + charToDigit (digitChar n) = n
      rw [charToDigit_digitChar n (by omega)]
      omega
    · rw [if_neg h]
      rw [digitsToNat_append_last, ih (n / 10) (Nat.div_lt_self (by omega) (by omega)),
        charToDigit_digitChar (n % 10) (by omega)]
      omega

theorem natToChars_length_le (k : Nat) :
    ∀ n : Nat, 1 ≤ k → n < 10 ^ k → (natToChars n).length ≤ k := by
  induction k with
  | zero =>
    intro n h1 _
    omega
  | succ k ih =>
    intro n _ h
    rw [natToChars]
    by_cases h10 : n < 10
    · rw [if_pos h10]
      simp
    · rw [if_neg h10]
      have hk1 : 1 ≤ k := by
        by_contra hc
        have hzero : k = 0 := by omega
        subst hzero
        simp [pow_succ] at h
        omega
      have hdiv : n / 10 < 10 ^ k := by
        rw [Nat.div_lt_iff_lt_mul (by omega)]
        calc n < 10 ^ (k + 1) := h
        _ = 10 ^ k * 10 := by rw [pow_succ]
      have := ih (n / 10) hk1 hdiv
      simp only [List.length_append, List.length_cons, List.length_nil]
      omega

theorem allDigits_pad2 (n : Nat) : allDigits (pad2 n) = true := by
  unfold pad2
  by_cases h : n < 10
  · rw [if_pos h]
    simp [allDigits, isDigitChar_digitChar]
    decide
  · rw [if_neg h]
    exact allDigits_natToChars n

theorem pad2_length_le (n : Nat) (h : n ≤ 99) : (pad2 n).length ≤ 2 := by
  unfold pad2
  by_cases h10 : n < 10
  · rw [if_pos h10]
    simp
  · rw [if_neg h10]
    exact natToChars_length_le 2 n (by omega) (by omega)

theorem pad2_ne_nil (n : Nat) : pad2 n ≠ [] := by
  unfold pad2
  by_cases h10 : n < 10
  · rw [if_pos h10]
    simp
  · rw [if_neg h10]
    exact natToChars_ne_nil n

theorem digitsToNat_pad2 (n : Nat) : digitsToNat (pad2 n) = n := by
  unfold pad2
  by_cases h10 : n < 10
  · rw [if_pos h10]
    show 10 * (10 * 0 + charToDigit '0') + charToDigit (digitChar n) = n
    rw [charToDigit_digitChar n (by omega), (by rfl : charToDigit '0' = 0)]
    omega
  · rw [if_neg h10]
    exact digitsToNat_natToChars n

theorem splitDash_no_dash (a : List Char) (h : '-' ∉ a) : splitDash a = [a] := by
  induction a with
  | nil => rfl
  | cons c cs ih =>
    simp only [List.mem_cons] at h
    push_neg at h
    rw [splitDash, if_neg (fun hh => h.1 hh.symm), ih h.2]

theorem splitDash_append_dash (a b : List Char) (h : '-' ∉ a) :
    splitDash (a ++ '-' :: b) = a :: splitDash b := by
  induction a with
  | nil =>
    simp only [List.nil_append]
    rw [splitDash, if_pos rfl]
  | cons c cs ih =>
    simp only [List.mem_cons] at h
    push_neg at h
    simp only [List.cons_append]
    rw [splitDash, if_neg (fun hh => h.1 hh.symm), ih h.2]

theorem daysInMonth_le_31 (y m : Nat) : daysInMonth y m ≤ 31 := by
  unfold daysInMonth
  split
  · split <;> omega
  · split <;> omega

theorem natToChars_length_ge (k : Nat) :
    ∀ n : Nat, 10 ^ k ≤ n → k + 1 ≤ (natToChars n).length := by
  induction k with
  | zero =>
    intro n _
    have h := List.length_pos.mpr (natToChars_ne_nil n)
    omega
  | succ k ih =>
    intro n h
    have h10 : ¬n < 10 := by
      have hp : 10 ≤ 10 ^ (k + 1) := by
        calc (10 : Nat) = 10 ^ 1 := by norm_num
        _ ≤ 10 ^ (k + 1) := Nat.pow_le_pow_right (by omega) (by omega)
      omega
    rw [natToChars, if_neg h10]
    have hdiv : 10 ^ k ≤ n / 10 := by
      rw [Nat.le_div_iff_mul_le (by omega)]
      calc 10 ^ k * 10 = 10 ^ (k + 1) := by rw [pow_succ]
      _ ≤ n := h
    have := ih (n / 10) hdiv
    simp only [List.length_append, List.length_cons, List.length_nil]
    omega

theorem digitChar_ne_space (x : Nat) : digitChar x ≠ ' ' := by
  intro h
  have hd := isDigitChar_digitChar x
  rw [h] at hd
  exact absurd hd (by decide)

theorem dayField_pad2 (d : Nat) (h1 : 1 ≤ d) (h2 : d ≤ 31) : dayField (pad2 d) = some d := by
  unfold pad2
  by_cases h10 : d < 10
  · rw [if_pos h10]
    simp [dayField, isDigitChar_digitChar, charToDigit_digitChar d (by omega), h1, h2,
      (by decide : isDigitChar '0' = true), (by decide : charToDigit '0' = 0)]
  · rw [if_neg h10]
    have hsplit : natToChars d = [digitChar (d / 10), digitChar (d % 10)] := by
      rw [natToChars, if_neg h10, natToChars, if_pos (by omega : d / 10 < 10)]
      rfl
    have hv : 10 * charToDigit (digitChar (d / 10)) + charToDigit (digitChar (d % 10)) = d := by
      rw [charToDigit_digitChar (d / 10) (by omega), charToDigit_digitChar (d % 10) (by omega)]
      omega
    rw [hsplit]
    simp [dayField, isDigitChar_digitChar, digitChar_ne_space, hv, h1, h2]

theorem strptimeYMD_fmtYMD (y m d : Nat) (hy1 : 1000 ≤ y) (hy2 : y ≤ 9999)
    (hm1 : 1 ≤ m) (hm2 : m ≤ 12) (hd1 : 1 ≤ d) (hd2 : d ≤ daysInMonth y m) :
    strptimeYMD (fmtYMD (y, m, d)) = some (y, m, d) := by
  have hA := allDigits_natToChars y
  have hB := allDigits_pad2 m
  have hC := allDigits_pad2 d
  have split3 : splitDash (natToChars y ++ '-' :: (pad2 m ++ '-' :: pad2 d))
      = [natToChars y, pad2 m, pad2 d] := by
    rw [splitDash_append_dash _ _ (not_dash_of_allDigits _ hA),
        splitDash_append_dash _ _ (not_dash_of_allDigits _ hB),
        splitDash_no_dash _ (not_dash_of_allDigits _ hC)]
  have hylen4 : (natToChars y).length = 4 := by
    have hle := natToChars_length_le 4 y (by omega) (by omega)
    have hge := natToChars_length_ge 3 y (le_trans (by norm_num) hy1)
    omega
  have hmlen : (pad2 m).length ≤ 2 := pad2_length_le m (by omega)
  have hmlen1 : 1 ≤ (pad2 m).length := List.length_pos.mpr (pad2_ne_nil m)
  have hday : dayField (pad2 d) = some d :=
    dayField_pad2 d hd1 (le_trans hd2 (daysInMonth_le_31 y m))
  have hy1l : 1 ≤ y := by omega
  simp only [strptimeYMD, fmtYMD, String.data, split3, hA, hB, hylen4, hmlen, hmlen1, hday,
    digitsToNat_natToChars, digitsToNat_pad2, hm1, hm2, hy1l, hd2, decide_True,
    Bool.and_true, Bool.true_and, and_true, true_and, if_true]

theorem fmtYMD_ne_empty (y m d : Nat) : fmtYMD (y, m, d) ≠ "" := by
  intro h
  have h2 := congrArg String.data h
  rw [show (fmtYMD (y, m, d)).data = natToChars y ++ '-' :: (pad2 m ++ '-' :: pad2 d)
    from rfl] at h2
  rw [show ("" : String).data = [] from rfl] at h2
  simp [List.append_eq_nil] at h2

/-- Boundary behavior of the strptime embedding at the year, month and day
fields: a three-digit year is rejected (the %Y regex requires exactly four
digits) and Date construction then raises, a zero-padded four-digit year
below 1000 is accepted, a space-padded single-digit day is accepted, a
space-padded month is rejected (the %m regex has no space alternative), and
a zero day is rejected. -/
theorem strptimeYMD_field_examples :
    strptimeYMD "999-2-1" = none ∧
    Date.init (some "999-2-1") = Except.error (PyExc.valueError
      ("Date must be in format YYYY-MM-DD, got: " ++ "999-2-1")) ∧
    strptimeYMD "0999-2-1" = some (999, 2, 1) ∧
    strptimeYMD "2025-2- 1" = some (2025, 2, 1) ∧
    strptimeYMD "2025- 2-1" = none ∧
    strptimeYMD "2025-02-00" = none :=
  ⟨rfl, rfl, rfl, rfl, rfl, rfl⟩

/-- Claim C8 counterexample: the string 2025-2-1 is not in exact YYYY-MM-DD
shape, yet Date construction succeeds on it (strptime accepts non-padded
month and day fields) and the stored date then prints as 2025-02-01, not as
the original string; the space-padded 2025-2- 1 is likewise not in the exact
shape yet constructs (the day regex accepts a space-padded nonzero digit);
the empty string is also not in the exact shape yet construction succeeds
with the unset state. -/
theorem claim_C8_counterexample :
    specExactYMDShape "2025-2-1" = false ∧
    Date.init (some "2025-2-1") = Except.ok ⟨some (2025, 2, 1)⟩ ∧
    Date.str ⟨some (2025, 2, 1)⟩ = "2025-02-01" ∧
    specExactYMDShape "2025-2- 1" = false ∧
    Date.init (some "2025-2- 1") = Except.ok ⟨some (2025, 2, 1)⟩ ∧
    specExactYMDShape "" = false ∧
    Date.init (some "") = Except.ok ⟨none⟩ := by
  refine ⟨rfl, rfl, ?_, rfl, rfl, rfl, rfl⟩
  show fmtYMD (2025, 2, 1) = "2025-02-01"
  simp [fmtYMD, natToChars, pad2, digitChar]

/-- Claim C8 (amended): construction from a non-empty string fails with a
ValueError naming the string exactly when the strptime pattern rejects it;
the pattern requires exactly four year digits but also accepts strings
outside the exact YYYY-MM-DD shape (non-padded month or day, and a
space-padded single-digit day), so such strings construct successfully. For
every calendar-valid date printed in canonical four-digit YYYY-MM-DD form,
construction succeeds and the string conversion returns the original
string. -/
theorem claim_C8_date_amended :
    (∀ s, s ≠ "" → strptimeYMD s = none →
      Date.init (some s) = Except.error (PyExc.valueError
        ("Date must be in format YYYY-MM-DD, got: " ++ s))) ∧
    (∀ y m d : Nat, 1000 ≤ y → y ≤ 9999 → 1 ≤ m → m ≤ 12 → 1 ≤ d → d ≤ daysInMonth y m →
      Date.init (some (fmtYMD (y, m, d))) = Except.ok ⟨some (y, m, d)⟩ ∧
      Date.str ⟨some (y, m, d)⟩ = fmtYMD (y, m, d)) := by
  constructor
  · intro s hs hp
    simp only [Date.init]
    rw [if_neg hs, hp]
  · intro y m d h1 h2 h3 h4 h5 h6
    refine ⟨?_, rfl⟩
    simp only [Date.init]
    rw [if_neg (fmtYMD_ne_empty y m d), strptimeYMD_fmtYMD y m d (by omega) h2 h3 h4 h5 h6]

theorem claim_C8_date_amended_witness :
    Date.init (some "2025-13-01") = Except.error (PyExc.valueError
      ("Date must be in format YYYY-MM-DD, got: " ++ "2025-13-01")) ∧
    Date.init (some (fmtYMD (2025, 2, 1))) = Except.ok ⟨some (2025, 2, 1)⟩ ∧
    Date.str ⟨some (2025, 2, 1)⟩ = fmtYMD (2025, 2, 1) ∧
    fmtYMD (2025, 2, 1) = "2025-02-01" := by
  refine ⟨claim_C8_date_amended.1 "2025-13-01" (by decide) rfl,
    (claim_C8_date_amended.2 2025 2 1 (by omega) (by omega) (by omega) (by omega) (by omega)
      (by decide)).1,
    (claim_C8_date_amended.2 2025 2 1 (by omega) (by omega) (by omega) (by omega) (by omega)
      (by decide)).2, ?_⟩
  simp [fmtYMD, natToChars, pad2, digitChar]
